import Mathlib

/-!
Verification of the openbase AST-to-structured-data pipeline.

This file shallowly embeds the core of the repository:
  * `src/parsing.py` (basic parser + flattener, returning error dicts),
  * `src/server/parsing.py` (server flattener, which also splits docstrings),
  * `src/server/transformation/transform_models.py` (the Django model extractor),
and proves the spec's testable properties about them.

Python values flowing through the pipeline (the "generic tree" of the spec)
are modelled by `PyVal`; raw Python AST nodes (inputs of the flattener) by
`PyObj`.  Machine-level concerns (interning, float constants) do not occur on
the verified paths and are not modelled.
-/

namespace Openbase

/-- A Python runtime value as used by the pipeline: `None`, booleans, ints,
strings, lists, tuples and (insertion-ordered) dicts.  Dict entries keep
insertion order, as Python dicts do; updating an existing key keeps its
position. -/
inductive PyVal where
  | none
  | bool (b : Bool)
  | int (n : Int)
  | str (s : String)
  | list (xs : List PyVal)
  | tuple (xs : List PyVal)
  | dict (entries : List (PyVal × PyVal))

mutual

/-- Structural equality of `PyVal`s, mirroring Python `==` on the value kinds
that actually occur in the pipeline (no numeric cross-kind coercions are
needed: the embedded code only ever compares strings and `None`). -/
def pyBeq : PyVal → PyVal → Bool
  | .none, .none => true
  | .bool a, .bool b => a == b
  | .int a, .int b => a == b
  | .str a, .str b => a == b
  | .list xs, .list ys => pyBeqList xs ys
  | .tuple xs, .tuple ys => pyBeqList xs ys
  | .dict xs, .dict ys => pyBeqEntries xs ys
  | _, _ => false

/-- Elementwise equality of value lists. -/
def pyBeqList : List PyVal → List PyVal → Bool
  | [], [] => true
  | x :: xs, y :: ys => pyBeq x y && pyBeqList xs ys
  | _, _ => false

/-- Elementwise equality of dict entry lists. -/
def pyBeqEntries : List (PyVal × PyVal) → List (PyVal × PyVal) → Bool
  | [], [] => true
  | (k, v) :: xs, (k', v') :: ys => pyBeq k k' && pyBeq v v' && pyBeqEntries xs ys
  | _, _ => false

end

/-- Python dict lookup over an insertion-ordered entry list. -/
def lookupEntries (entries : List (PyVal × PyVal)) (k : PyVal) : Option PyVal :=
  match entries with
  | [] => Option.none
  | (k', v) :: rest => if pyBeq k' k then some v else lookupEntries rest k

/-- Python dict item assignment: an existing key keeps its position and gets
the new value; a new key is appended at the end. -/
def setItem (entries : List (PyVal × PyVal)) (k v : PyVal) : List (PyVal × PyVal) :=
  match entries with
  | [] => [(k, v)]
  | (k', v') :: rest =>
      if pyBeq k' k then (k', v) :: rest else (k', v') :: setItem rest k v

/-- Python `d.get(key, default)`.  On non-dict receivers Python would raise
`AttributeError`; that situation is unreachable on flattener output, and we
return the default there. -/
def PyVal.getD (v : PyVal) (k d : PyVal) : PyVal :=
  match v with
  | .dict es => (lookupEntries es k).getD d
  | _ => d

/-- Python `d.get(key)` with a string key (default `None`). -/
def PyVal.getS (v : PyVal) (k : String) : PyVal :=
  v.getD (.str k) .none

/-- Lookup of a string key in a dict value, `Option.none` when the key is
absent (distinguishing a missing key from a stored `None`). -/
def dictLookup (v : PyVal) (k : String) : Option PyVal :=
  match v with
  | .dict es => lookupEntries es (.str k)
  | _ => Option.none

/-- Python truthiness of the modelled values. -/
def PyVal.truthy : PyVal → Bool
  | .none => false
  | .bool b => b
  | .int n => n != 0
  | .str s => !s.isEmpty
  | .list xs => !xs.isEmpty
  | .tuple xs => !xs.isEmpty
  | .dict es => !es.isEmpty

/-- Python `v is None` (the pipeline never aliases distinct `None`s, so this
is just the `None` test). -/
def PyVal.isNone : PyVal → Bool
  | .none => true
  | _ => false

/-- Iteration over a Python list or tuple.  Iterating any other value either
raises in Python or is unreachable on flattener output; modelled as empty. -/
def PyVal.toList : PyVal → List PyVal
  | .list xs => xs
  | .tuple xs => xs
  | _ => []

/-- Python `str(v)` as used inside the pipeline's f-strings.  Only `None` and
strings ever reach an f-string on the embedded paths, so the container
renderings are placeholders (unreachable). -/
def pyStr : PyVal → String
  | .none => "None"
  | .bool true => "True"
  | .bool false => "False"
  | .int n => toString n
  | .str s => s
  | .list _ => "<list>"
  | .tuple _ => "<tuple>"
  | .dict _ => "<dict>"

/-- Python `v == "lit"` for a string literal: true exactly on the equal
string; every other value kind compares unequal. -/
def strEq (v : PyVal) (s : String) : Bool :=
  match v with
  | .str t => t == s
  | _ => false

/-- Python `isinstance(v, str)`. -/
def isStrVal : PyVal → Bool
  | .str _ => true
  | _ => false

/-! ### String helpers mirroring the Python string methods used by the code -/

/-- The characters Python `str.strip()` removes (ASCII whitespace; the
pipeline never feeds it non-ASCII whitespace). -/
def isPyWhitespace (c : Char) : Bool :=
  c == ' ' || c == '\t' || c == '\n' || c == '\r' || c == '\x0b' || c == '\x0c'

/-- Python `s.strip()`. -/
def pyStrip (s : String) : String :=
  ⟨((s.toList.dropWhile isPyWhitespace).reverse.dropWhile isPyWhitespace).reverse⟩

/-- Helper for `splitlinesKeep`: accumulates the current line (reversed). -/
def splitlinesKeepAux : List Char → List Char → List String
  | acc, [] => if acc.isEmpty then [] else [⟨acc.reverse⟩]
  | acc, c :: rest =>
      if c = '\n' then ⟨(c :: acc).reverse⟩ :: splitlinesKeepAux [] rest
      else splitlinesKeepAux (c :: acc) rest

/-- Python `source.splitlines(True)` for text whose line breaks are `\n`
(which is what `Path.read_text`'s universal-newline translation yields).
Exotic break characters such as `\x0c`, which would also desynchronise the
AST's line numbers, are not modelled. -/
def splitlinesKeep (s : String) : List String :=
  splitlinesKeepAux [] s.toList

/-- Python list slice `xs[s:e]` for indices already known to be in range
(the flattener guards its slice with exactly that check). -/
def sliceList {α : Type} (xs : List α) (s e : Nat) : List α :=
  (xs.drop s).take (e - s)

/-- Python string slice `s[a:b]` for `0 ≤ a ≤ b`. -/
def strSlice (s : String) (a b : Nat) : String :=
  ⟨((s.toList).drop a).take (b - a)⟩

/-- Python string slice `s[a:]`. -/
def strSliceFrom (s : String) (a : Nat) : String :=
  ⟨(s.toList).drop a⟩

/-- Python `s.startswith(t)`. -/
def pyStartswith (s t : String) : Bool :=
  t.toList.isPrefixOf s.toList

/-- Helper for `pyFind`: first match position of `nee` in `hay`, offset by
`i`, or `-1`. -/
def pyFindAux (nee : List Char) : List Char → Nat → Int
  | hay, i =>
      if nee.isPrefixOf hay then (i : Int)
      else
        match hay with
        | [] => -1
        | _ :: t => pyFindAux nee t (i + 1)

/-- Python `s.find(sub)`: lowest index where `sub` occurs, else `-1`. -/
def pyFind (s sub : String) : Int :=
  pyFindAux sub.toList s.toList 0

/-- A single-quote character (written via its code point). -/
def squote : Char := Char.ofNat 39

/-- The triple-single-quote delimiter. -/
def tripleSQ : String := ⟨[squote, squote, squote]⟩

/-- The `"""` delimiter. -/
def tripleDQ : String := "\"\"\""

/-! ### Raw Python AST nodes (inputs of the flattener)

`ast.iter_fields` yields a node's structural `_fields` (which never include
the position attributes); `lineno`/`end_lineno` are separate node attributes,
modelled as `Option Int` where `Option.none` stands for a missing attribute
(every node of a really parsed file carries both). -/

inductive PyObj where
  | node (nodetype : String) (lineno end_lineno : Option Int)
      (fields : List (String × PyObj))
  | list (xs : List PyObj)
  | str (s : String)
  | int (n : Int)
  | bool (b : Bool)
  | none
  | other (rep : String)

/-- Python `getattr(stmt, "lineno", None)`. -/
def stmtLineno : PyObj → Option Int
  | .node _ ln _ _ => ln
  | _ => Option.none

/-- Python `getattr(stmt, "end_lineno", getattr(stmt, "lineno", None))`. -/
def stmtEndLinenoD : PyObj → Option Int
  | .node _ ln eln _ =>
      match eln with
      | some e => some e
      | Option.none => ln
  | _ => Option.none

/-- The raw body text of a function definition, shared verbatim by
`src/parsing.py` and `src/server/parsing.py` (lines 33–67 resp. 39–62 of
`_ast_to_dict`): join the source lines from the first body statement's
`lineno` to the last statement's `end_lineno` (falling back to its `lineno`),
or the empty string when the body is empty, a line number is missing, or the
computed span fails the index guard. -/
def bodySpanSource (source : String) (bodyVal : PyObj) : String :=
  match bodyVal with
  | .list (first :: rest) =>
      let last := rest.getLastD first
      match stmtLineno first, stmtEndLinenoD last with
      | some body_start_lineno, some body_end_lineno =>
          let all_source_lines := splitlinesKeep source
          let start_idx : Int := body_start_lineno - 1
          let end_idx : Int := body_end_lineno
          if 0 ≤ start_idx && start_idx < (all_source_lines.length : Int)
              && start_idx < end_idx && end_idx ≤ (all_source_lines.length : Int) then
            String.join (sliceList all_source_lines start_idx.toNat end_idx.toNat)
          else ""
      | _, _ => ""
  | .list [] => ""
  | _ => ""

/-- Field names skipped by the generic branch of the flatteners. -/
def isLocField (f : String) : Bool :=
  f == "lineno" || f == "col_offset" || f == "end_lineno"
    || f == "end_col_offset" || f == "ctx"

namespace Parsing

/-! Embedding of `src/parsing.py`. -/

mutual

/-- Embeds `_ast_to_dict` of `src/parsing.py`: recursively converts an AST node into
the generic tree, replacing each function/method body by `body_source` (the
raw source span) plus an empty `body` list. -/
def ast_to_dict (source : String) : PyObj → PyVal
  | .node nodetype _ _ fields =>
      if nodetype == "FunctionDef" || nodetype == "AsyncFunctionDef" then
        .dict ((.str "_nodetype", .str nodetype) :: funcFields source fields)
      else
        .dict ((.str "_nodetype", .str nodetype) :: genericFields source fields)
  | .list xs => .list (astList source xs)
  | .str s => .str s
  | .int n => .int n
  | .bool b => .bool b
  | .none => .none
  | .other rep => .str rep

/-- The field loop of `_ast_to_dict` for function definitions: the `body`
field becomes `body_source` plus an empty `body`; other fields are flattened
recursively. -/
def funcFields (source : String) : List (String × PyObj) → List (PyVal × PyVal)
  | [] => []
  | (f, v) :: rest =>
      if f == "body" then
        (.str "body_source", .str (bodySpanSource source v))
          :: (.str "body", .list [])
          :: funcFields source rest
      else
        (.str f, ast_to_dict source v) :: funcFields source rest

/-- The field loop of `_ast_to_dict` for all other nodes: position fields and
`ctx` are skipped, everything else is flattened recursively. -/
def genericFields (source : String) : List (String × PyObj) → List (PyVal × PyVal)
  | [] => []
  | (f, v) :: rest =>
      if isLocField f then genericFields source rest
      else (.str f, ast_to_dict source v) :: genericFields source rest

/-- Elementwise flattening of a node list. -/
def astList (source : String) : List PyObj → List PyVal
  | [] => []
  | x :: xs => ast_to_dict source x :: astList source xs

end

/-- Embeds `parse_django_file_ast` of `src/parsing.py`.  The file system is
modelled as an association list from path to content (`lookup` failing means
`path.exists()` is false), and `ast.parse` as an oracle `parseFn` returning
either a module node or a syntax-error message.  The function's `except`
catches any exception of the read-parse-convert block and yields the
`"Failed to parse …"` dict; in this embedding only the parse step can fail
(a looked-up file is readable and the conversion is total). -/
def parse_django_file_ast (fs : List (String × String))
    (parseFn : String → Except String PyObj) (file_path : String) : PyVal :=
  match fs.lookup file_path with
  | Option.none =>
      .dict [(.str "error", .str ("File not found: " ++ file_path)),
             (.str "ast", .none)]
  | some source_code =>
      match parseFn source_code with
      | .error e =>
          .dict [(.str "error", .str ("Failed to parse " ++ file_path ++ ": " ++ e)),
                 (.str "ast", .none)]
      | .ok tree =>
          let ast_dict := ast_to_dict source_code tree
          let declarations :=
            match ast_dict with
            | .dict _ => ast_dict.getS "body"
            | _ => .list []
          .dict [(.str "file_path", .str file_path),
                 (.str "ast_declarations", declarations)]

end Parsing

namespace ServerParsing

/-! Embedding of `src/server/parsing.py`. -/

/-- The triple-quote delimiter chosen by the server flattener (line 69–73):
`"""` when the text starts with it, else the single-quoted one. -/
def quoteTypeOf (s : String) : String :=
  if pyStartswith s tripleDQ then tripleDQ else tripleSQ

/-- The condition under which the server flattener splits off a docstring
(lines 66–75): the stripped body text starts with one of the two triple-quote
delimiters and the same
delimiter occurs again in the text after the opening one. -/
def hasDocstringTrigger (s : String) : Bool :=
  (pyStartswith s tripleDQ || pyStartswith s tripleSQ)
    && pyFind (strSliceFrom s 3) (quoteTypeOf s) != -1

/-- The docstring extraction of `src/server/parsing.py` lines 66–86 on the
stripped body text: returns the cleaned body text together with the extracted
docstring, if any. -/
def splitDocstring (s : String) : String × Option String :=
  if pyStartswith s tripleDQ || pyStartswith s tripleSQ then
    let quote_type := quoteTypeOf s
    let docstring_end := pyFind (strSliceFrom s 3) quote_type
    if docstring_end != -1 then
      let docstring := pyStrip (strSlice s 3 (docstring_end.toNat + 3))
      (pyStrip (strSliceFrom s (docstring_end.toNat + 6)), some docstring)
    else (s, Option.none)
  else (s, Option.none)

/-- The dict entries the server flattener emits in place of a function's
`body` field: `body_source` (span text, stripped, docstring removed) and,
when one was extracted, `docstring`.  Python applies `strip` and the
docstring split only inside the valid-span branch; applying them
unconditionally is equivalent because the other branches produce the empty
string, which neither operation changes. -/
def serverBodyEntries (source : String) (bodyVal : PyObj) : List (PyVal × PyVal) :=
  let split := splitDocstring (pyStrip (bodySpanSource source bodyVal))
  match split.2 with
  | some docstring =>
      [(.str "body_source", .str split.1),
       (.str "docstring", .str docstring)]
  | Option.none =>
      [(.str "body_source", .str split.1)]

mutual

/-- Embeds `_ast_to_dict` of `src/server/parsing.py`: like the basic flattener, but
the `body` field of a function definition is replaced by `body_source` (and
optionally `docstring`), with no residual `body` key. -/
def ast_to_dict (source : String) : PyObj → PyVal
  | .node nodetype _ _ fields =>
      if nodetype == "FunctionDef" || nodetype == "AsyncFunctionDef" then
        .dict ((.str "_nodetype", .str nodetype) :: funcFields source fields)
      else
        .dict ((.str "_nodetype", .str nodetype) :: genericFields source fields)
  | .list xs => .list (astList source xs)
  | .str s => .str s
  | .int n => .int n
  | .bool b => .bool b
  | .none => .none
  | .other rep => .str rep

/-- The field loop for function definitions in the server flattener. -/
def funcFields (source : String) : List (String × PyObj) → List (PyVal × PyVal)
  | [] => []
  | (f, v) :: rest =>
      if f == "body" then serverBodyEntries source v ++ funcFields source rest
      else (.str f, ast_to_dict source v) :: funcFields source rest

/-- The field loop for all other nodes in the server flattener. -/
def genericFields (source : String) : List (String × PyObj) → List (PyVal × PyVal)
  | [] => []
  | (f, v) :: rest =>
      if isLocField f then genericFields source rest
      else (.str f, ast_to_dict source v) :: genericFields source rest

/-- Elementwise flattening of a node list. -/
def astList (source : String) : List PyObj → List PyVal
  | [] => []
  | x :: xs => ast_to_dict source x :: astList source xs

end

/-- The exceptions the server variant can raise: `Path.read_text` raises
`FileNotFoundError` for a missing file, `ast.parse` raises `SyntaxError`;
`src/server/parsing.py` catches neither. -/
inductive PyExc where
  | fileNotFound (path : String)
  | syntaxError (msg : String)

/-- Embeds `parse_django_file_ast` of `src/server/parsing.py`, which propagates
exceptions instead of returning error dicts. -/
def parse_django_file_ast (fs : List (String × String))
    (parseFn : String → Except String PyObj) (file_path : String) :
    Except PyExc PyVal :=
  match fs.lookup file_path with
  | Option.none => .error (.fileNotFound file_path)
  | some source_code =>
      match parseFn source_code with
      | .error e => .error (.syntaxError e)
      | .ok tree =>
          let ast_dict := ast_to_dict source_code tree
          let declarations :=
            match ast_dict with
            | .dict _ => ast_dict.getS "body"
            | _ => .list []
          .ok (.dict [(.str "file_path", .str file_path),
                      (.str "ast_declarations", declarations)])

end ServerParsing

namespace Transform

/-! Embedding of `src/server/transformation/transform_models.py`. -/

/-- The keyword-value decoding of `parse_model_field` (lines 22–29): a
`Constant` node yields its value, a `Name` node its identifier, an
`Attribute` node the f-string `"{value.id}.{attr}"` (a missing base
identifier rendering as `"None"`); any other — or falsy — value node leaves
the decoded value `None`. -/
def decode_kwarg_value (kwarg_val_node : PyVal) : PyVal :=
  if kwarg_val_node.truthy then
    if strEq (kwarg_val_node.getS "_nodetype") "Constant" then
      kwarg_val_node.getS "value"
    else if strEq (kwarg_val_node.getS "_nodetype") "Name" then
      kwarg_val_node.getS "id"
    else if strEq (kwarg_val_node.getS "_nodetype") "Attribute" then
      .str (pyStr ((kwarg_val_node.getD (.str "value") (.dict [])).getS "id")
              ++ "." ++ pyStr (kwarg_val_node.getS "attr"))
    else .none
  else .none

/-- The choices resolution of `parse_model_field` (lines 33–41): each
`(const_name, human_readable)` tuple keeps its label, and its first slot is
replaced by the class-level string constant of that name when one was
remembered. -/
def resolveChoices (class_level_vars : List (PyVal × PyVal))
    (tuples : List (PyVal × PyVal)) : List (PyVal × PyVal) :=
  tuples.map fun (const_name, human_readable) =>
    match lookupEntries class_level_vars const_name with
    | some v => (v, human_readable)
    | Option.none => (const_name, human_readable)

/-- One step of the keyword loop of `parse_model_field` (lines 19–44), acting
on the state `(field_kwargs, processed_choices)`.  Python tests
`kwarg_name == "choices" and kwarg_value in class_level_choices_vars` and
then indexes the dict; here the lookup is performed first and the name test
inside its branches, which decides the same cases. -/
def fieldKwargStep (class_level_vars : List (PyVal × PyVal))
    (class_level_choices_vars : List (PyVal × List (PyVal × PyVal)))
    (st : List (PyVal × PyVal) × Option (List (PyVal × PyVal)))
    (kwarg_node : PyVal) :
    List (PyVal × PyVal) × Option (List (PyVal × PyVal)) :=
  let (field_kwargs, processed_choices) := st
  let kwarg_name := kwarg_node.getS "arg"
  let kwarg_value := decode_kwarg_value (kwarg_node.getS "value")
  match class_level_choices_vars.find? (fun e => pyBeq e.1 kwarg_value) with
  | some entry =>
      if strEq kwarg_name "choices" then
        (field_kwargs, some (resolveChoices class_level_vars entry.2))
      else if kwarg_name.truthy && !kwarg_value.isNone then
        (setItem field_kwargs kwarg_name kwarg_value, processed_choices)
      else (field_kwargs, processed_choices)
  | Option.none =>
      if kwarg_name.truthy && !kwarg_value.isNone then
        (setItem field_kwargs kwarg_name kwarg_value, processed_choices)
      else (field_kwargs, processed_choices)

/-- The `field_data` assembly of `parse_model_field` (lines 46–53): the base
record plus, when the keyword loop produced `processed_choices`, the
`choices` entry (Python tuples of the resolved pairs). -/
def assembleFieldData (target_name : PyVal) (field_type : String)
    (field_args : List PyVal)
    (kwSt : List (PyVal × PyVal) × Option (List (PyVal × PyVal))) : PyVal :=
  let base :=
    [(PyVal.str "name", target_name),
     (PyVal.str "type", PyVal.str field_type),
     (PyVal.str "args", PyVal.list field_args),
     (PyVal.str "kwargs", PyVal.dict kwSt.1)]
  match kwSt.2 with
  | some processed_choices =>
      .dict (base ++ [(.str "choices",
        .list (processed_choices.map fun (a, b) => .tuple [a, b]))])
  | Option.none => .dict base

/-- Embeds `parse_model_field`: decode a Django field call into its record
(`name`/`type`/`args`/`kwargs`, plus `choices` when a remembered `_CHOICES`
variable was resolved).  `value_node['func']['attr']` is Python indexing,
which presupposes the keys (always present on flattener output for a call to
`models.<FieldType>`). -/
def parse_model_field (value_node target_name : PyVal)
    (class_level_vars : List (PyVal × PyVal))
    (class_level_choices_vars : List (PyVal × List (PyVal × PyVal))) : PyVal :=
  let field_type :=
    "models." ++ pyStr ((value_node.getS "func").getS "attr")
  let field_args :=
    (value_node.getD (.str "args") (.list [])).toList.foldl
      (fun acc arg_node =>
        if strEq (arg_node.getS "_nodetype") "Name" then
          acc ++ [arg_node.getS "id"]
        else if strEq (arg_node.getS "_nodetype") "Constant" then
          acc ++ [arg_node.getS "value"]
        else acc) []
  let kwSt :=
    (value_node.getD (.str "keywords") (.list [])).toList.foldl
      (fieldKwargStep class_level_vars class_level_choices_vars)
      ([], Option.none)
  assembleFieldData target_name field_type field_args kwSt

/-- Python `target_name.endswith("_CHOICES")`; a non-string target name would
raise in Python and is unreachable on flattener output (a `Name` node's `id`
is a string). -/
def endsWithChoicesSuffix (v : PyVal) : Bool :=
  match v with
  | .str s => "_CHOICES".toList.isSuffixOf s.toList
  | _ => false

/-- Item assignment into the choices dict (same semantics as `setItem`, at
the choices value type). -/
def setItemChoices (entries : List (PyVal × List (PyVal × PyVal))) (k : PyVal)
    (v : List (PyVal × PyVal)) : List (PyVal × List (PyVal × PyVal)) :=
  match entries with
  | [] => [(k, v)]
  | (k', v') :: rest =>
      if pyBeq k' k then (k', v) :: rest
      else (k', v') :: setItemChoices rest k v

/-- Embeds `parse_class_level_variable`: remember class-level string constants in
`class_level_vars` and `*_CHOICES` list literals of `(Name, Constant)` pairs
in `class_level_choices_vars`; returns the updated pair of dicts. -/
def parse_class_level_variable (target_name value_node : PyVal)
    (class_level_vars : List (PyVal × PyVal))
    (class_level_choices_vars : List (PyVal × List (PyVal × PyVal))) :
    List (PyVal × PyVal) × List (PyVal × List (PyVal × PyVal)) :=
  if strEq (value_node.getS "_nodetype") "Constant"
      && isStrVal (value_node.getS "value") then
    (setItem class_level_vars target_name (value_node.getS "value"),
     class_level_choices_vars)
  else if endsWithChoicesSuffix target_name
      && strEq (value_node.getS "_nodetype") "List" then
    let choices_list :=
      (value_node.getD (.str "elts") (.list [])).toList.foldl
        (fun acc elt_tuple =>
          if strEq (elt_tuple.getS "_nodetype") "Tuple" then
            match (elt_tuple.getD (.str "elts") (.list [])).toList with
            | [const_name_node, human_readable_node] =>
                if strEq (const_name_node.getS "_nodetype") "Name"
                    && strEq (human_readable_node.getS "_nodetype") "Constant" then
                  acc ++ [(const_name_node.getS "id",
                           human_readable_node.getS "value")]
                else acc
            | _ => acc
          else acc) []
    (class_level_vars,
     setItemChoices class_level_choices_vars target_name choices_list)
  else (class_level_vars, class_level_choices_vars)

/-- The property-decorator scan of `parse_method_or_property` (lines 87–91):
is any decorator a bare `Name` node with identifier `property`? -/
def has_property_decorator (item : PyVal) : Bool :=
  (item.getD (.str "decorator_list") (.list [])).toList.any fun decorator =>
    strEq (decorator.getS "_nodetype") "Name"
      && strEq (decorator.getS "id") "property"

/-- Python `.strip()`, totalized: a non-string receiver passes through
unchanged where Python raises `AttributeError` (see `pyStripVal?` for the
faithful fallible version).  At the `parse_method_or_property` call sites
the receiver is a flattener-produced string (or the `""` default), so the
recovery branch is unreachable there; at the `model_docstring` call site a
non-string constant from the source file can reach it — that reachable
crash is modelled by `model_docstring?` and the checked extractor
`transform_models_py?`. -/
def pyStripVal : PyVal → PyVal
  | .str s => .str (pyStrip s)
  | v => v

/-- Python `.strip()` as the program executes it: `Option.none` models the
`AttributeError` raised on a non-string receiver. -/
def pyStripVal? : PyVal → Option PyVal
  | .str s => some (.str (pyStrip s))
  | _ => Option.none

/-- Modelled from the spec: `extract_function_info` is imported from
`server/transformation/utils.py`, a file that is not among the sources at
hand.  Per the spec's MethodRecord (§3) it returns the method's name, a
structured argument descriptor with the six slots positional-only / regular /
keyword-only / defaults / vararg / kwarg, the raw body text and the
docstring.  Argument names are read off the flattened `arguments` node. -/
def extract_function_info (item : PyVal) : PyVal :=
  let argsNode := item.getS "args"
  let argNames : PyVal → PyVal := fun v =>
    .list (v.toList.map fun a => a.getS "arg")
  let singleArgName : PyVal → PyVal := fun v =>
    if v.truthy then v.getS "arg" else .none
  .dict
    [(.str "name", item.getS "name"),
     (.str "args", .dict
       [(.str "positional_only", argNames (argsNode.getS "posonlyargs")),
        (.str "regular_args", argNames (argsNode.getS "args")),
        (.str "keyword_only", argNames (argsNode.getS "kwonlyargs")),
        (.str "defaults", argsNode.getD (.str "defaults") (.list [])),
        (.str "vararg", singleArgName (argsNode.getS "vararg")),
        (.str "kwarg", singleArgName (argsNode.getS "kwarg"))]),
     (.str "body_source", item.getD (.str "body_source") (.str "")),
     (.str "docstring", item.getD (.str "docstring") (.str ""))]

/-- Embeds `parse_method_or_property`: a `property`-decorated definition yields
`(name, [], stripped body, true, stripped docstring)`; any other definition
yields the comprehensive record built from `extract_function_info`, with the
six-slot argument dict. -/
def parse_method_or_property (item : PyVal) :
    PyVal × PyVal × PyVal × Bool × PyVal :=
  let is_property := has_property_decorator item
  if is_property then
    (item.getS "name",
     .list [],
     pyStripVal (item.getD (.str "body_source") (.str "")),
     true,
     pyStripVal (item.getD (.str "docstring") (.str "")))
  else
    let func_info := extract_function_info item
    let fargs := func_info.getS "args"
    (func_info.getS "name",
     .dict
       [(.str "positional_only", fargs.getS "positional_only"),
        (.str "regular_args", fargs.getS "regular_args"),
        (.str "keyword_only", fargs.getS "keyword_only"),
        (.str "defaults", fargs.getS "defaults"),
        (.str "vararg", fargs.getS "vararg"),
        (.str "kwarg", fargs.getS "kwarg")],
     func_info.getS "body_source",
     false,
     func_info.getS "docstring")

/-- Embeds `parse_meta_class`: collect the `Meta` inner class's simple assignments
(list literals keep their constant elements, scalar constants pass through)
into a metadata dict. -/
def parse_meta_class (item : PyVal) : List (PyVal × PyVal) :=
  (item.getD (.str "body") (.list [])).toList.foldl
    (fun meta_info meta_item =>
      if strEq (meta_item.getS "_nodetype") "Assign" then
        let meta_attr_name :=
          ((meta_item.getD (.str "targets") (.list [])).toList.headD
            (.dict [])).getS "id"
        let meta_attr_value_node := meta_item.getS "value"
        let meta_attr_value :=
          if meta_attr_value_node.truthy then
            if strEq (meta_attr_value_node.getS "_nodetype") "List" then
              PyVal.list
                ((meta_attr_value_node.getD (.str "elts") (.list [])).toList.foldl
                  (fun acc elt =>
                    if strEq (elt.getS "_nodetype") "Constant" then
                      acc ++ [elt.getS "value"]
                    else acc) [])
            else if strEq (meta_attr_value_node.getS "_nodetype") "Constant" then
              meta_attr_value_node.getS "value"
            else PyVal.none
          else PyVal.none
        if meta_attr_name.truthy && !meta_attr_value.isNone then
          setItem meta_info meta_attr_name meta_attr_value
        else meta_info
      else meta_info) []

/-- The `models.Model` base test of `transform_models_py` (lines 152–159): an
`Attribute` base whose base identifier is `models` and whose attribute is
`Model`. -/
def is_django_model_base (base : PyVal) : Bool :=
  strEq (base.getS "_nodetype") "Attribute"
    && strEq ((base.getD (.str "value") (.dict [])).getS "id") "models"
    && strEq (base.getS "attr") "Model"

/-- A declaration is treated as a Django model when some base matches
`models.Model`. -/
def is_django_model (dec : PyVal) : Bool :=
  (dec.getD (.str "bases") (.list [])).toList.any is_django_model_base

/-- The guard chain of the model-docstring extraction of
`transform_models_py` (lines 176–179): when the class body's first
statement is an `Expr` holding a truthy `Constant`, the value
`docstring_node.get("value", "")` that line 180 then calls `.strip()` on;
`Option.none` when the guard chain rejects and the initial `None`
docstring is kept. -/
def model_docstring_value (dec : PyVal) : Option PyVal :=
  let body := dec.getS "body"
  if body.truthy then
    match body.toList.head? with
    | some first =>
        if strEq (first.getS "_nodetype") "Expr" then
          let docstring_node := first.getS "value"
          if docstring_node.truthy
              && strEq (docstring_node.getS "_nodetype") "Constant" then
            some (docstring_node.getD (.str "value") (.str ""))
          else Option.none
        else Option.none
    | Option.none => Option.none
  else Option.none

/-- The model-class docstring of lines 176–180 in the totalized extractor:
the guarded constant value, stripped; the initial `None` otherwise.  The
guard checks only `_nodetype == "Constant"` and not that the value is a
string, so a model class headed by a bare `42` (or `True`, `None`, a
float) reaches line 180's `.strip()` with a non-string and the real
program raises `AttributeError`; `model_docstring?` models that raise,
while this total variant recovers by passing the value through. -/
def model_docstring (dec : PyVal) : PyVal :=
  match model_docstring_value dec with
  | some v => pyStripVal v
  | Option.none => .none

/-- The docstring extraction as the program actually runs it:
`Option.none` is the uncaught `AttributeError` of line 180 on a non-string
constant value. -/
def model_docstring? (dec : PyVal) : Option PyVal :=
  match model_docstring_value dec with
  | some v => pyStripVal? v
  | Option.none => some .none

/-- The mutable parts of `model_info` (plus the two class-level dicts)
threaded through the body loop of `transform_models_py`. -/
structure ModelAcc where
  fields : List PyVal
  methods : List PyVal
  properties : List PyVal
  meta : List (PyVal × PyVal)
  class_level_vars : List (PyVal × PyVal)
  class_level_choices_vars : List (PyVal × List (PyVal × PyVal))

/-- One iteration of the body loop of `transform_models_py` (lines 182–238):
dispatch an item to field parsing, class-level variable collection, method /
property parsing, or `Meta` parsing.  Python's `item.get("targets",
[{}])[0]` raises on a present-but-empty targets list; an `Assign` node always
has at least one target, so the `headD` default is never consulted there. -/
def transform_model_item (acc : ModelAcc) (item : PyVal) : ModelAcc :=
  if strEq (item.getS "_nodetype") "Assign" then
    let target_node :=
      (item.getD (.str "targets") (.list [PyVal.dict []])).toList.headD (.dict [])
    if strEq (target_node.getS "_nodetype") "Name" then
      let target_name := target_node.getS "id"
      let value_node := item.getS "value"
      let is_model_field :=
        value_node.truthy
          && strEq (value_node.getS "_nodetype") "Call"
          && strEq ((value_node.getD (.str "func") (.dict [])).getS "_nodetype")
               "Attribute"
          && strEq (((value_node.getD (.str "func") (.dict [])).getD
               (.str "value") (.dict [])).getS "id") "models"
      if is_model_field then
        { acc with
          fields := acc.fields ++
            [parse_model_field value_node target_name acc.class_level_vars
              acc.class_level_choices_vars] }
      else
        let vars' := parse_class_level_variable target_name value_node
          acc.class_level_vars acc.class_level_choices_vars
        { acc with
          class_level_vars := vars'.1
          class_level_choices_vars := vars'.2 }
    else acc
  else if strEq (item.getS "_nodetype") "FunctionDef" then
    let parsed := parse_method_or_property item
    let method_name := parsed.1
    let method_args := parsed.2.1
    let method_body := parsed.2.2.1
    let is_property := parsed.2.2.2.1
    let method_docstring := parsed.2.2.2.2
    if is_property then
      { acc with
        properties := acc.properties ++
          [.dict [(.str "name", method_name),
                  (.str "body", method_body),
                  (.str "docstring", method_docstring)]] }
    else
      { acc with
        methods := acc.methods ++
          [.dict [(.str "name", method_name),
                  (.str "body", method_body),
                  (.str "docstring", method_docstring),
                  (.str "args", method_args)]] }
  else if strEq (item.getS "_nodetype") "ClassDef"
      && strEq (item.getS "name") "Meta" then
    { acc with meta := parse_meta_class item }
  else acc

/-- The record assembled for one model declaration in `transform_models_py`
(dict key order as created at lines 164–171). -/
def modelInfo (dec : PyVal) : PyVal :=
  let acc := (dec.getD (.str "body") (.list [])).toList.foldl
    transform_model_item ⟨[], [], [], [], [], []⟩
  .dict
    [(.str "name", dec.getS "name"),
     (.str "docstring", model_docstring dec),
     (.str "fields", .list acc.fields),
     (.str "methods", .list acc.methods),
     (.str "properties", .list acc.properties),
     (.str "meta", .dict acc.meta)]

/-- One iteration of the declarations loop of `transform_models_py`: skip
anything that is not a `ClassDef` (line 147) or lacks a `models.Model` base
(line 161), and append the transformed record otherwise (line 240). -/
def modelsStep (output : List PyVal) (dec : PyVal) : List PyVal :=
  if !strEq (dec.getS "_nodetype") "ClassDef" then output
  else if !is_django_model dec then output
  else output ++ [modelInfo dec]

/-- Embeds `transform_models_py`: keep exactly the `ClassDef` declarations with a
`models.Model` base, in order, each transformed into its model record.
This is the totalized extractor, which recovers from the reachable
`AttributeError` of the line-180 docstring strip; `transform_models_py?`
below models the raise, and `transform_models_py?_some` shows the two agree
on every run where the program does not raise. -/
def transform_models_py (models_py_ast : PyVal) : PyVal :=
  let declarations := models_py_ast.getD (.str "ast_declarations") (.list [])
  .dict [(.str "models", .list (declarations.toList.foldl modelsStep []))]

/-- The parse-and-transform pipeline of the API: `parse_django_file_ast`
(`src/parsing.py`) followed by the model extractor. -/
def parse_and_transform (fs : List (String × String))
    (parseFn : String → Except String PyObj) (file_path : String) : PyVal :=
  transform_models_py (Parsing.parse_django_file_ast fs parseFn file_path)

/-! ### The checked extractor

The same extractor with Python's exceptions made explicit: `Option.none` is
an uncaught exception aborting the whole `transform_models_py` call.  The
only fallible operations are the `.strip()` calls; of those, only the
docstring strip of line 180 can receive a non-string on flattener output
(any constant value heading a class body flows into it), while the strips
of `parse_method_or_property` receive flattener-produced strings. -/

/-- Checked `parse_method_or_property`: the property branch strips
`body_source` and then `docstring`, each of which raises on a non-string;
the method branch performs no strip and is shared with the total
embedding. -/
def parse_method_or_property? (item : PyVal) :
    Option (PyVal × PyVal × PyVal × Bool × PyVal) :=
  let is_property := has_property_decorator item
  if is_property then
    match pyStripVal? (item.getD (.str "body_source") (.str "")) with
    | some method_body =>
        match pyStripVal? (item.getD (.str "docstring") (.str "")) with
        | some docstring =>
            some (item.getS "name", .list [], method_body, true, docstring)
        | Option.none => Option.none
    | Option.none => Option.none
  else some (parse_method_or_property item)

/-- Checked body-loop step: only the `FunctionDef` branch can raise (via
the property strips); every other branch is the total one.  Python tests
the `Assign` case first, but the `_nodetype` string selects at most one
branch, so dispatching on `FunctionDef` first decides the same cases. -/
def transform_model_item? (acc : ModelAcc) (item : PyVal) :
    Option ModelAcc :=
  if strEq (item.getS "_nodetype") "FunctionDef" then
    (parse_method_or_property? item).map (fun parsed =>
      if parsed.2.2.2.1 then
        { acc with
          properties := acc.properties ++
            [.dict [(.str "name", parsed.1),
                    (.str "body", parsed.2.2.1),
                    (.str "docstring", parsed.2.2.2.2)]] }
      else
        { acc with
          methods := acc.methods ++
            [.dict [(.str "name", parsed.1),
                    (.str "body", parsed.2.2.1),
                    (.str "docstring", parsed.2.2.2.2),
                    (.str "args", parsed.2.1)]] })
  else some (transform_model_item acc item)

/-- Checked model record: Python extracts the docstring (lines 176–180,
where the strip can raise) before running the body loop. -/
def modelInfo? (dec : PyVal) : Option PyVal :=
  match model_docstring? dec with
  | Option.none => Option.none
  | some docstring =>
      match (dec.getD (.str "body") (.list [])).toList.foldlM
          transform_model_item? ⟨[], [], [], [], [], []⟩ with
      | Option.none => Option.none
      | some acc =>
          some (.dict
            [(.str "name", dec.getS "name"),
             (.str "docstring", docstring),
             (.str "fields", .list acc.fields),
             (.str "methods", .list acc.methods),
             (.str "properties", .list acc.properties),
             (.str "meta", .dict acc.meta)])

/-- Checked declarations-loop step. -/
def modelsStep? (output : List PyVal) (dec : PyVal) : Option (List PyVal) :=
  if !strEq (dec.getS "_nodetype") "ClassDef" then some output
  else if !is_django_model dec then some output
  else (modelInfo? dec).map (fun mi => output ++ [mi])

/-- Checked `transform_models_py`: `Option.none` is an uncaught exception —
the call produces no models list at all for that file. -/
def transform_models_py? (models_py_ast : PyVal) : Option PyVal :=
  match (models_py_ast.getD (.str "ast_declarations")
      (.list [])).toList.foldlM modelsStep? [] with
  | Option.none => Option.none
  | some models => some (.dict [(.str "models", .list models)])

end Transform

/-! ### Flattener-shaped node constructors

Abbreviations for the dicts the flattener produces for the node kinds the
extractor pattern-matches on; used to state the claims on concrete and
symbolic inputs. -/

/-- A flattened `Name` node. -/
def mkName (id : String) : PyVal :=
  .dict [(.str "_nodetype", .str "Name"), (.str "id", .str id)]

/-- A flattened `Constant` node with the given value. -/
def mkConst (v : PyVal) : PyVal :=
  .dict [(.str "_nodetype", .str "Constant"), (.str "value", v)]

/-- A flattened `Attribute` node. -/
def mkAttr (value : PyVal) (attr : String) : PyVal :=
  .dict [(.str "_nodetype", .str "Attribute"), (.str "value", value),
         (.str "attr", .str attr)]

/-- A flattened `keyword` node of a call. -/
def mkKeyword (arg value : PyVal) : PyVal :=
  .dict [(.str "_nodetype", .str "keyword"), (.str "arg", arg),
         (.str "value", value)]

/-- A flattened `Call` node. -/
def mkCall (func : PyVal) (args keywords : List PyVal) : PyVal :=
  .dict [(.str "_nodetype", .str "Call"), (.str "func", func),
         (.str "args", .list args), (.str "keywords", .list keywords)]

/-- A flattened single-target `Assign` node. -/
def mkAssign (target value : PyVal) : PyVal :=
  .dict [(.str "_nodetype", .str "Assign"), (.str "targets", .list [target]),
         (.str "value", value)]

/-- A flattened 2-`Tuple` node. -/
def mkTuple2 (a b : PyVal) : PyVal :=
  .dict [(.str "_nodetype", .str "Tuple"), (.str "elts", .list [a, b])]

/-- A flattened `List` node. -/
def mkListNode (elts : List PyVal) : PyVal :=
  .dict [(.str "_nodetype", .str "List"), (.str "elts", .list elts)]

/-- The flattened `models.Model` base expression. -/
def modelsModelBase : PyVal := mkAttr (mkName "models") "Model"

/-- A flattened `ClassDef` node. -/
def mkClassDef (name : String) (bases body : List PyVal) : PyVal :=
  .dict [(.str "_nodetype", .str "ClassDef"), (.str "name", .str name),
         (.str "bases", .list bases), (.str "body", .list body)]

/-- A parse result carrying the given top-level declarations. -/
def mkModuleAst (decs : List PyVal) : PyVal :=
  .dict [(.str "ast_declarations", .list decs)]

/-- The model class of the choices-resolution test: `ACTIVE = "A"`,
`INACTIVE = "I"`, `STATUS_CHOICES = [(ACTIVE, "Active"), (INACTIVE,
"Inactive")]`, `status = models.CharField(max_length=20,
choices=STATUS_CHOICES)`. -/
def statusModelClass : PyVal :=
  mkClassDef "Order" [modelsModelBase]
    [mkAssign (mkName "ACTIVE") (mkConst (.str "A")),
     mkAssign (mkName "INACTIVE") (mkConst (.str "I")),
     mkAssign (mkName "STATUS_CHOICES")
       (mkListNode
         [mkTuple2 (mkName "ACTIVE") (mkConst (.str "Active")),
          mkTuple2 (mkName "INACTIVE") (mkConst (.str "Inactive"))]),
     mkAssign (mkName "status")
       (mkCall (mkAttr (mkName "models") "CharField") []
         [mkKeyword (.str "max_length") (mkConst (.int 20)),
          mkKeyword (.str "choices") (mkName "STATUS_CHOICES")])]

/-- A statement node carrying only its position (its own fields are not
consulted by the body-source computation). -/
def stmtAt (nodetype : String) (ln eln : Int) : PyObj :=
  .node nodetype (some ln) (some eln) []

/-- A raw `FunctionDef` node with the standard field skeleton of
`ast.FunctionDef` (`name`, `args`, `body`, `decorator_list`, `returns`,
`type_comment`). -/
def funcDefObj (name : String) (argsNode : PyObj) (stmts : List PyObj)
    (decorators : List PyObj) (ln eln : Option Int) : PyObj :=
  .node "FunctionDef" ln eln
    [("name", .str name), ("args", argsNode), ("body", .list stmts),
     ("decorator_list", .list decorators), ("returns", .none),
     ("type_comment", .none)]

/-- The source text of the docstring example `def f(): """doc""" ; return 1`. -/
def srcF : String := "def f():\n    \"\"\"doc\"\"\"\n    return 1\n"

/-- Its `FunctionDef` node as `ast.parse` produces it. -/
def srcFDef : PyObj :=
  funcDefObj "f" (.node "arguments" Option.none Option.none [])
    [stmtAt "Expr" 2 2, stmtAt "Return" 3 3] [] (some 1) (some 3)

/-- The source text of a docstring-free function `def g(): return 2`. -/
def srcG : String := "def g():\n    return 2\n"

/-- Its `FunctionDef` node as `ast.parse` produces it. -/
def srcGDef : PyObj :=
  funcDefObj "g" (.node "arguments" Option.none Option.none [])
    [stmtAt "Return" 2 2] [] (some 1) (some 2)

/-- The NotFound flag of a `parse_django_file_ast` result: the `error` entry
is a string starting with `"File not found"` (line 9 of `src/parsing.py`
formats the message as `f"File not found: {path}"`; the HTTP layer maps such
results to a not-found status). -/
def isNotFoundResult (r : PyVal) : Bool :=
  match dictLookup r "error" with
  | some (.str s) => pyStartswith s "File not found"
  | _ => false

/-- The SyntaxError flag of a `parse_django_file_ast` result: the `error`
entry is a string starting with `"Failed to parse"` (line 20 formats the
message as `f"Failed to parse {path}: {e}"`). -/
def isSyntaxErrorResult (r : PyVal) : Bool :=
  match dictLookup r "error" with
  | some (.str s) => pyStartswith s "Failed to parse"
  | _ => false

/-- The original source lines from line `bs` to line `be` (inclusive),
whitespace-trimmed: the text the server flattener starts its docstring
handling from. -/
def strippedSpan (source : String) (bs be : Int) : String :=
  pyStrip (String.join (sliceList (splitlinesKeep source) (bs - 1).toNat
    be.toNat))

/-- The predicate of the model-extractor claim: a top-level class declaration
whose base-class list contains an `Attribute` node with base identifier
`models` and attribute `Model`. -/
def isDjangoModelClassDec (dec : PyVal) : Bool :=
  strEq (dec.getS "_nodetype") "ClassDef" && Transform.is_django_model dec

/-- A class-body item the extractor routes to the properties list: a
`FunctionDef` carrying a bare `@property` decorator. -/
def isPropertyItem (item : PyVal) : Bool :=
  strEq (item.getS "_nodetype") "FunctionDef"
    && Transform.has_property_decorator item

/-- A class-body item the extractor routes to the methods list: a
`FunctionDef` without the `@property` decorator. -/
def isMethodItem (item : PyVal) : Bool :=
  strEq (item.getS "_nodetype") "FunctionDef"
    && !Transform.has_property_decorator item

/-- The record `transform_models_py` appends to a model's properties list
(name, body, docstring — no argument entry at all). -/
def propertyRecord (item : PyVal) : PyVal :=
  .dict [(.str "name", (Transform.parse_method_or_property item).1),
         (.str "body", (Transform.parse_method_or_property item).2.2.1),
         (.str "docstring",
           (Transform.parse_method_or_property item).2.2.2.2)]

/-- The record `transform_models_py` appends to a model's methods list
(name, body, docstring, plus the six-slot argument descriptor). -/
def methodRecord (item : PyVal) : PyVal :=
  .dict [(.str "name", (Transform.parse_method_or_property item).1),
         (.str "body", (Transform.parse_method_or_property item).2.2.1),
         (.str "docstring",
           (Transform.parse_method_or_property item).2.2.2.2),
         (.str "args", (Transform.parse_method_or_property item).2.1)]

/-- A flattened `FunctionDef` class-body item as the server flattener
produces it: name, an `arguments` node with a single `self` argument,
`body_source`, and the decorator list. -/
def mkFunctionDefVal (name : String) (decorators : List PyVal)
    (body_source : String) : PyVal :=
  .dict [(.str "_nodetype", .str "FunctionDef"),
         (.str "name", .str name),
         (.str "args", .dict
           [(.str "_nodetype", .str "arguments"),
            (.str "posonlyargs", .list []),
            (.str "args", .list [.dict [(.str "_nodetype", .str "arg"),
              (.str "arg", .str "self")]]),
            (.str "kwonlyargs", .list []),
            (.str "defaults", .list []),
            (.str "vararg", .none),
            (.str "kwarg", .none)]),
         (.str "body_source", .str body_source),
         (.str "decorator_list", .list decorators)]

/-- A flattened bare-expression statement (e.g. `42` on a line of its
own). -/
def mkExprStmt (v : PyVal) : PyVal :=
  .dict [(.str "_nodetype", .str "Expr"), (.str "value", v)]

/-- A Django model class whose first body statement is the bare non-string
constant `42`:
`class Flagged(models.Model):` / `42` / `flag = models.BooleanField()`.
Valid Python, parseable, and a `models.Model` class — but its leading
constant is an int, so line 180's `.strip()` raises. -/
def nonStringDocClass : PyVal :=
  mkClassDef "Flagged" [modelsModelBase]
    [mkExprStmt (mkConst (.int 42)),
     mkAssign (mkName "flag")
       (mkCall (mkAttr (mkName "models") "BooleanField") [] [])]

/-- A Django model class headed by the bare constant `42` and containing a
`@property`-decorated method. -/
def nonStringDocPropertyClass : PyVal :=
  mkClassDef "Person" [modelsModelBase]
    [mkExprStmt (mkConst (.int 42)),
     mkFunctionDefVal "full_name" [mkName "property"] "return 1"]

/-! ### Sanity examples -/

example : pyBeq (.str "a") (.str "a") = true := rfl
example : Transform.endsWithChoicesSuffix (.str "STATUS_CHOICES") = true := rfl
example :
    Transform.parse_class_level_variable (.str "ACTIVE") (mkConst (.str "A")) [] [] =
      ([(.str "ACTIVE", .str "A")], []) := rfl
example :
    (Parsing.ast_to_dict srcF srcFDef).getS "body_source" =
      .str "    \"\"\"doc\"\"\"\n    return 1\n" := rfl
example :
    (ServerParsing.ast_to_dict srcF srcFDef).getS "body_source" =
      .str "return 1" := rfl
example :
    (ServerParsing.ast_to_dict srcF srcFDef).getS "docstring" =
      .str "doc" := rfl
example :
    Transform.transform_models_py? (mkModuleAst [statusModelClass]) =
      some (Transform.transform_models_py (mkModuleAst [statusModelClass])) :=
  rfl
example :
    Transform.model_docstring? nonStringDocClass = Option.none := rfl

/-! ### Helper lemmas -/

/-- The length of the declarations fold of `transform_models_py` grows by one
per matching class declaration. -/
theorem modelsStep_foldl_length (decs : List PyVal) (output : List PyVal) :
    (decs.foldl Transform.modelsStep output).length =
      output.length + decs.countP isDjangoModelClassDec := by
  induction decs generalizing output with
  | nil => simp
  | cons d ds ih =>
      rw [List.foldl_cons, ih, List.countP_cons]
      unfold Transform.modelsStep
      unfold isDjangoModelClassDec
      by_cases h1 : strEq (d.getS "_nodetype") "ClassDef"
      · by_cases h2 : Transform.is_django_model d
        · simp [h1, h2]
          omega
        · simp [h1, h2]
      · simp [h1]

/-- Comparing with `pyBeq` against a string on the right holds exactly for that string. -/
theorem pyBeq_str_right_iff (v : PyVal) (s : String) :
    pyBeq v (.str s) = true ↔ v = .str s := by
  cases v <;> simp [pyBeq]

/-- Comparing with `pyBeq` against a string on the left holds exactly for that string. -/
theorem pyBeq_str_left_iff (v : PyVal) (s : String) :
    pyBeq (.str s) v = true ↔ v = .str s := by
  cases v <;> simp [pyBeq]
  exact eq_comm

/-- Assigning a key other than `.str s` into a dict does not change the
lookup of `.str s`. -/
theorem lookupEntries_setItem_of_ne (es : List (PyVal × PyVal)) (k v : PyVal)
    (s : String) (h : k ≠ .str s) :
    lookupEntries (setItem es k v) (.str s) = lookupEntries es (.str s) := by
  have hk : pyBeq k (.str s) = false := by
    cases hb : pyBeq k (.str s)
    · rfl
    · exact absurd ((pyBeq_str_right_iff k s).mp hb) h
  induction es with
  | nil => simp [setItem, lookupEntries, hk]
  | cons e es ih =>
      obtain ⟨k', v'⟩ := e
      by_cases h1 : pyBeq k' k = true
      · have hk' : pyBeq k' (.str s) = false := by
          cases hb : pyBeq k' (.str s)
          · rfl
          · exfalso
            have e1 := (pyBeq_str_right_iff k' s).mp hb
            subst e1
            exact absurd ((pyBeq_str_left_iff k s).mp h1) h
        simp [setItem, h1, lookupEntries, hk']
      · simp only [setItem, h1, Bool.false_eq_true, if_false, lookupEntries]
        split
        · rfl
        · exact ih

/-- Invariant of the keyword loop of `parse_model_field`: as long as every
`choices`-named keyword resolves against the remembered `_CHOICES` dict, the
accumulated kwargs never bind the key `choices`. -/
theorem fieldKwargs_foldl_no_choices
    (vars : List (PyVal × PyVal)) (cvars : List (PyVal × List (PyVal × PyVal)))
    (ks : List PyVal) :
    ∀ (st : List (PyVal × PyVal) × Option (List (PyVal × PyVal))),
    lookupEntries st.1 (.str "choices") = Option.none →
    (∀ kw ∈ ks, strEq (kw.getS "arg") "choices" = true →
      (cvars.find? (fun e => pyBeq e.1
        (Transform.decode_kwarg_value (kw.getS "value")))).isSome = true) →
    lookupEntries (ks.foldl (Transform.fieldKwargStep vars cvars) st).1
      (.str "choices") = Option.none := by
  induction ks with
  | nil => intro st h _; simpa using h
  | cons kw ks ih =>
      intro st hst hks
      rw [List.foldl_cons]
      refine ih _ ?_ (fun kw' hm h' => hks kw' (List.mem_cons_of_mem _ hm) h')
      obtain ⟨fk, pc⟩ := st
      cases hf : cvars.find? (fun e => pyBeq e.1
          (Transform.decode_kwarg_value (kw.getS "value"))) with
      | some entry =>
          by_cases hn : strEq (kw.getS "arg") "choices" = true
          · simpa [Transform.fieldKwargStep, hf, hn] using hst
          · have hn' : strEq (kw.getS "arg") "choices" = false :=
              Bool.eq_false_iff.mpr hn
            simp only [Transform.fieldKwargStep, hf, hn', Bool.false_eq_true,
              if_false]
            split
            · show lookupEntries (setItem fk _ _) (.str "choices") = _
              refine (lookupEntries_setItem_of_ne fk _ _ _ ?_).trans hst
              intro hk
              rw [hk] at hn'
              simp [strEq] at hn'
            · exact hst
      | none =>
          have hn' : strEq (kw.getS "arg") "choices" = false := by
            cases hc : strEq (kw.getS "arg") "choices"
            · rfl
            · have := hks kw (List.mem_cons_self kw ks) hc
              rw [hf] at this
              exact absurd this (by simp)
          simp only [Transform.fieldKwargStep, hf]
          split
          · show lookupEntries (setItem fk _ _) (.str "choices") = _
            refine (lookupEntries_setItem_of_ne fk _ _ _ ?_).trans hst
            intro hk
            rw [hk] at hn'
            simp [strEq] at hn'
          · exact hst

/-- A head-mismatch within the first two characters refutes a prefix test. -/
theorem isPrefixOf_false_of_two (a b c d : Char) (t₁ t₂ : List Char)
    (h : (a == c && b == d) = false) :
    List.isPrefixOf (a :: b :: t₁) (c :: d :: t₂) = false := by
  cases hac : a == c with
  | false => simp [List.isPrefixOf, hac]
  | true =>
      rw [hac] at h
      simp only [Bool.true_and] at h
      simp [List.isPrefixOf, hac, h]

/-- The NotFound message starts with its own flag and not with the
SyntaxError flag, whatever the path is. -/
theorem notFound_message_flags (p : String) :
    pyStartswith ("File not found: " ++ p) "File not found" = true
    ∧ pyStartswith ("File not found: " ++ p) "Failed to parse" = false := by
  have hd : ("File not found: " ++ p).toList =
      "File not found: ".toList ++ p.toList := by
    show ("File not found: " ++ p).data = _
    rw [String.data_append]
    rfl
  constructor
  · unfold pyStartswith
    rw [hd]
    refine List.isPrefixOf_iff_prefix.mpr ?_
    rw [show ("File not found: ".toList : List Char) =
      "File not found".toList ++ ": ".toList from rfl, List.append_assoc]
    exact List.prefix_append _ _
  · unfold pyStartswith
    rw [hd]
    rw [show ("File not found: ".toList ++ p.toList : List Char) =
      'F' :: 'i' :: ("le not found: ".toList ++ p.toList) from rfl]
    rw [show ("Failed to parse".toList : List Char) =
      'F' :: 'a' :: "iled to parse".toList from rfl]
    exact isPrefixOf_false_of_two _ _ _ _ _ _ (by decide)

/-- The SyntaxError message starts with its own flag and not with the
NotFound flag, whatever the path and parser message are. -/
theorem syntaxError_message_flags (p e : String) :
    pyStartswith ("Failed to parse " ++ p ++ ": " ++ e) "Failed to parse" = true
    ∧ pyStartswith ("Failed to parse " ++ p ++ ": " ++ e) "File not found"
        = false := by
  have hd : ("Failed to parse " ++ p ++ ": " ++ e).toList =
      (("Failed to parse ".toList ++ p.toList) ++ ": ".toList) ++ e.toList := by
    show ("Failed to parse " ++ p ++ ": " ++ e).data = _
    rw [String.data_append, String.data_append, String.data_append]
    rfl
  constructor
  · unfold pyStartswith
    rw [hd]
    refine List.isPrefixOf_iff_prefix.mpr ?_
    rw [show ("Failed to parse ".toList : List Char) =
      "Failed to parse".toList ++ " ".toList from rfl]
    rw [List.append_assoc, List.append_assoc, List.append_assoc]
    exact List.prefix_append _ _
  · unfold pyStartswith
    rw [hd]
    rw [show ((("Failed to parse ".toList ++ p.toList) ++ ": ".toList)
        ++ e.toList : List Char) =
      'F' :: 'a' :: ((("iled to parse ".toList ++ p.toList) ++ ": ".toList)
        ++ e.toList) from rfl]
    rw [show ("File not found".toList : List Char) =
      'F' :: 'i' :: "le not found".toList from rfl]
    exact isPrefixOf_false_of_two _ _ _ _ _ _ (by decide)

/-- On the totalized extractor — the program with the line-180 strip crash
recovered — the `models` list length always equals the number of class
declarations with a `models.Model` base; combined with
`transform_models_py?_some` this gives the length property on every run
where the program does not raise (the real program crashes on some parsed
files, see `claim1_models_list_crash`). -/
theorem models_list_length_total (models_py_ast : PyVal) :
    ((Transform.transform_models_py models_py_ast).getS "models").toList.length =
      (models_py_ast.getD (.str "ast_declarations") (.list [])).toList.countP
        isDjangoModelClassDec := by
  unfold Transform.transform_models_py
  simp [PyVal.getS, PyVal.getD, lookupEntries, pyBeq, PyVal.toList,
    modelsStep_foldl_length]

/-- C2: for the model class with class-level constants `ACTIVE = "A"`,
`INACTIVE = "I"`, `STATUS_CHOICES = [(ACTIVE, "Active"), (INACTIVE,
"Inactive")]` and the field `status = models.CharField(max_length=20,
choices=STATUS_CHOICES)`, the extractor's field record for `status` carries
the resolved choices `[("A", "Active"), ("I", "Inactive")]`; and in general a
`choices` keyword resolving to remembered tuples replaces each tuple's first
element by the remembered class-level constant when one exists and keeps the
identifier otherwise. -/
theorem claim2_status_choices_resolution :
    ((((Transform.transform_models_py
        (mkModuleAst [statusModelClass])).getS "models").toList.headD
          .none).getS "fields").toList =
      [.dict [(.str "name", .str "status"),
              (.str "type", .str "models.CharField"),
              (.str "args", .list []),
              (.str "kwargs", .dict [(.str "max_length", .int 20)]),
              (.str "choices",
                .list [.tuple [.str "A", .str "Active"],
                       .tuple [.str "I", .str "Inactive"]])]]
    ∧ ∀ (vars tuples : List (PyVal × PyVal)),
        (Transform.parse_model_field
          (mkCall (mkAttr (mkName "models") "CharField") []
            [mkKeyword (.str "choices") (mkName "STATUS_CHOICES")])
          (.str "status") vars [(.str "STATUS_CHOICES", tuples)]).getS
            "choices" =
          .list (tuples.map fun t =>
            .tuple [(lookupEntries vars t.1).getD t.1, t.2]) := by
  refine ⟨rfl, fun vars tuples => ?_⟩
  show PyVal.list ((Transform.resolveChoices vars tuples).map
    fun p => .tuple [p.1, p.2]) = _
  rw [Transform.resolveChoices, List.map_map]
  refine congrArg PyVal.list (List.map_congr_left fun t _ => ?_)
  cases h : lookupEntries vars t.1 <;> simp [h]

/-- C7: a keyword argument whose value is an `Attribute` node decodes to the
dotted string `"<base-identifier>.<attribute-name>"` (one level of nesting);
for a deeper attribute chain the base identifier is not resolved further and
the result degrades (to `"None.<attr>"`) instead of raising. -/
theorem claim7_attribute_kwarg_decoding (fname k b m a : String) (tname : PyVal)
    (hk : k ≠ "") :
    (Transform.parse_model_field
      (mkCall (mkAttr (mkName "models") fname) []
        [mkKeyword (.str k) (mkAttr (mkName b) a)])
      tname [] []).getS "kwargs" =
      .dict [(.str k, .str (b ++ "." ++ a))]
    ∧ (Transform.parse_model_field
      (mkCall (mkAttr (mkName "models") fname) []
        [mkKeyword (.str k) (mkAttr (mkAttr (mkName b) m) a)])
      tname [] []).getS "kwargs" =
      .dict [(.str k, .str ("None." ++ a))] := by
  have hk' : k.isEmpty = false := by
    cases h : k.isEmpty
    · rfl
    · exact absurd ((String.isEmpty_iff k).mp h) hk
  constructor <;>
    simp [Transform.parse_model_field, Transform.fieldKwargStep,
      Transform.assembleFieldData, Transform.decode_kwarg_value, PyVal.truthy,
      hk', setItem, pyBeq, lookupEntries, PyVal.getS, PyVal.getD,
      PyVal.toList, pyStr, strEq, mkCall, mkAttr, mkName, mkKeyword,
      PyVal.isNone]

/-- C7 witness: decoding `on_delete=models.CASCADE` and a two-level chain at
concrete inputs. -/
theorem claim7_attribute_kwarg_decoding_witness :
    (Transform.parse_model_field
      (mkCall (mkAttr (mkName "models") "ForeignKey") []
        [mkKeyword (.str "on_delete") (mkAttr (mkName "models") "CASCADE")])
      (.str "user") [] []).getS "kwargs" =
      .dict [(.str "on_delete", .str ("models" ++ "." ++ "CASCADE"))]
    ∧ (Transform.parse_model_field
      (mkCall (mkAttr (mkName "models") "ForeignKey") []
        [mkKeyword (.str "on_delete")
          (mkAttr (mkAttr (mkName "django") "db") "CASCADE")])
      (.str "user") [] []).getS "kwargs" =
      .dict [(.str "on_delete", .str ("None." ++ "CASCADE"))] :=
  claim7_attribute_kwarg_decoding "ForeignKey" "on_delete" "models" "db"
    "CASCADE" (.str "user") (by decide)

/-- C9: a `choices` keyword whose decoded value names a remembered
`_CHOICES` variable never appears in the field record's kwargs map (every
`choices` keyword resolving implies no `choices` key in kwargs), and the
resolved list appears under the separate `choices` key instead; a `choices`
keyword naming an unknown variable stays in kwargs as the raw identifier
(and yields no separate `choices` key); and a keyword whose value node is
neither a `Constant`, a `Name` nor an `Attribute` is omitted from kwargs
entirely. -/
theorem claim9_choices_kwarg_routing :
    (∀ (fname : String) (tname : PyVal) (args ks : List PyVal)
        (vars : List (PyVal × PyVal))
        (cvars : List (PyVal × List (PyVal × PyVal))),
      (∀ kw ∈ ks, strEq (kw.getS "arg") "choices" = true →
        (cvars.find? (fun e => pyBeq e.1
          (Transform.decode_kwarg_value (kw.getS "value")))).isSome = true) →
      dictLookup ((Transform.parse_model_field
        (mkCall (mkAttr (mkName "models") fname) args ks) tname vars
        cvars).getS "kwargs") "choices" = Option.none)
    ∧ (∀ (fname v : String) (tname : PyVal) (vars : List (PyVal × PyVal))
        (cvars : List (PyVal × List (PyVal × PyVal)))
        (entry : PyVal × List (PyVal × PyVal)),
      cvars.find? (fun e => pyBeq e.1 (.str v)) = some entry →
      (Transform.parse_model_field
        (mkCall (mkAttr (mkName "models") fname) []
          [mkKeyword (.str "choices") (mkName v)]) tname vars cvars).getS
        "choices" =
        .list (entry.2.map fun t =>
          .tuple [(lookupEntries vars t.1).getD t.1, t.2]))
    ∧ (∀ (fname v : String) (tname : PyVal) (vars : List (PyVal × PyVal))
        (cvars : List (PyVal × List (PyVal × PyVal))),
      cvars.find? (fun e => pyBeq e.1 (.str v)) = Option.none →
      (Transform.parse_model_field
        (mkCall (mkAttr (mkName "models") fname) []
          [mkKeyword (.str "choices") (mkName v)]) tname vars cvars).getS
        "kwargs" = .dict [(.str "choices", .str v)]
      ∧ dictLookup (Transform.parse_model_field
          (mkCall (mkAttr (mkName "models") fname) []
            [mkKeyword (.str "choices") (mkName v)]) tname vars cvars)
          "choices" = Option.none)
    ∧ (∀ (fname k : String) (tname vnode : PyVal),
      strEq (vnode.getS "_nodetype") "Constant" = false →
      strEq (vnode.getS "_nodetype") "Name" = false →
      strEq (vnode.getS "_nodetype") "Attribute" = false →
      (Transform.parse_model_field
        (mkCall (mkAttr (mkName "models") fname) []
          [mkKeyword (.str k) vnode]) tname [] []).getS "kwargs" =
        .dict []) := by
  have hasm : ∀ (tname : PyVal) (ft : String) (fa : List PyVal)
      (st : List (PyVal × PyVal) × Option (List (PyVal × PyVal))),
      (Transform.assembleFieldData tname ft fa st).getS "kwargs" =
        .dict st.1 := by
    intro tname ft fa st
    obtain ⟨fk, pc⟩ := st
    cases pc <;> rfl
  have hkw : ∀ (value_node tname : PyVal) (vars : List (PyVal × PyVal))
      (cvars : List (PyVal × List (PyVal × PyVal))),
      (Transform.parse_model_field value_node tname vars cvars).getS "kwargs" =
        .dict ((value_node.getD (.str "keywords") (.list [])).toList.foldl
          (Transform.fieldKwargStep vars cvars) ([], Option.none)).1 := by
    intro value_node tname vars cvars
    exact hasm _ _ _ _
  refine ⟨?_, ?_, ?_, ?_⟩
  · intro fname tname args ks vars cvars h
    rw [hkw]
    show lookupEntries _ (.str "choices") = Option.none
    have : ((mkCall (mkAttr (mkName "models") fname) args ks).getD
        (.str "keywords") (.list [])).toList = ks := by
      simp [mkCall, PyVal.getD, lookupEntries, pyBeq, PyVal.toList]
    rw [this]
    exact fieldKwargs_foldl_no_choices vars cvars ks ([], Option.none) rfl h
  · intro fname v tname vars cvars entry hf
    have hstep0 : Transform.fieldKwargStep vars cvars ([], Option.none)
        (mkKeyword (.str "choices") (mkName v)) =
        (match cvars.find? (fun e => pyBeq e.1 (.str v)) with
          | some entry => ([], some (Transform.resolveChoices vars entry.2))
          | Option.none => ([(.str "choices", .str v)], Option.none)) := rfl
    have hstep : Transform.fieldKwargStep vars cvars ([], Option.none)
        (mkKeyword (.str "choices") (mkName v)) =
        ([], some (Transform.resolveChoices vars entry.2)) := by
      rw [hstep0, hf]
    unfold Transform.parse_model_field
    rw [show ((mkCall (mkAttr (mkName "models") fname) []
        [mkKeyword (.str "choices") (mkName v)]).getD (.str "keywords")
        (.list [])).toList = [mkKeyword (.str "choices") (mkName v)] from rfl]
    rw [List.foldl_cons, hstep, List.foldl_nil]
    show PyVal.list ((Transform.resolveChoices vars entry.2).map
      fun p => .tuple [p.1, p.2]) = _
    rw [Transform.resolveChoices, List.map_map]
    refine congrArg PyVal.list (List.map_congr_left fun t _ => ?_)
    cases h : lookupEntries vars t.1 <;> simp [h]
  · intro fname v tname vars cvars hf
    have hstep0 : Transform.fieldKwargStep vars cvars ([], Option.none)
        (mkKeyword (.str "choices") (mkName v)) =
        (match cvars.find? (fun e => pyBeq e.1 (.str v)) with
          | some entry => ([], some (Transform.resolveChoices vars entry.2))
          | Option.none => ([(.str "choices", .str v)], Option.none)) := rfl
    have hstep : Transform.fieldKwargStep vars cvars ([], Option.none)
        (mkKeyword (.str "choices") (mkName v)) =
        ([(.str "choices", .str v)], Option.none) := by
      rw [hstep0, hf]
    constructor
    · unfold Transform.parse_model_field
      rw [show ((mkCall (mkAttr (mkName "models") fname) []
          [mkKeyword (.str "choices") (mkName v)]).getD (.str "keywords")
          (.list [])).toList = [mkKeyword (.str "choices") (mkName v)] from rfl]
      rw [List.foldl_cons, hstep, List.foldl_nil]
      rfl
    · unfold Transform.parse_model_field
      rw [show ((mkCall (mkAttr (mkName "models") fname) []
          [mkKeyword (.str "choices") (mkName v)]).getD (.str "keywords")
          (.list [])).toList = [mkKeyword (.str "choices") (mkName v)] from rfl]
      rw [List.foldl_cons, hstep, List.foldl_nil]
      rfl
  · intro fname k tname vnode h1 h2 h3
    have hdec0 : Transform.decode_kwarg_value vnode = .none := by
      unfold Transform.decode_kwarg_value
      rw [h1, h2, h3]
      simp
    have hstep0 : Transform.fieldKwargStep [] [] ([], Option.none)
        (mkKeyword (.str k) vnode) =
        (if ((PyVal.str k).truthy
            && !(Transform.decode_kwarg_value vnode).isNone)
          then (setItem [] (.str k) (Transform.decode_kwarg_value vnode),
                Option.none)
          else ([], Option.none)) := rfl
    have hstep : Transform.fieldKwargStep [] [] ([], Option.none)
        (mkKeyword (.str k) vnode) = ([], Option.none) := by
      rw [hstep0, hdec0]
      simp [PyVal.isNone]
    rw [hkw]
    rw [show ((mkCall (mkAttr (mkName "models") fname) []
        [mkKeyword (.str k) vnode]).getD (.str "keywords")
        (.list [])).toList = [mkKeyword (.str k) vnode] from rfl]
    rw [List.foldl_cons, hstep, List.foldl_nil]

/-- C9 witness: the three kwargs-routing behaviours at concrete inputs — a
resolving `choices` keyword, an unknown `choices` identifier, and a `List`
value node. -/
theorem claim9_choices_kwarg_routing_witness :
    dictLookup ((Transform.parse_model_field
      (mkCall (mkAttr (mkName "models") "CharField") []
        [mkKeyword (.str "choices") (mkName "STATUS_CHOICES")])
      (.str "status") [] [(.str "STATUS_CHOICES", [])]).getS "kwargs")
      "choices" = Option.none
    ∧ (Transform.parse_model_field
        (mkCall (mkAttr (mkName "models") "CharField") []
          [mkKeyword (.str "choices") (mkName "STATUS_CHOICES")])
        (.str "status") [(.str "ACTIVE", .str "A")]
        [(.str "STATUS_CHOICES", [(.str "ACTIVE", .str "Active")])]).getS
        "choices" =
        .list ([((PyVal.str "ACTIVE", PyVal.str "Active"))].map fun t =>
          .tuple [(lookupEntries [(.str "ACTIVE", .str "A")] t.1).getD t.1,
                  t.2])
    ∧ (Transform.parse_model_field
        (mkCall (mkAttr (mkName "models") "CharField") []
          [mkKeyword (.str "choices") (mkName "OTHER_CHOICES")])
        (.str "status") [] []).getS "kwargs" =
        .dict [(.str "choices", .str "OTHER_CHOICES")]
    ∧ (Transform.parse_model_field
        (mkCall (mkAttr (mkName "models") "CharField") []
          [mkKeyword (.str "validators") (mkListNode [])])
        (.str "status") [] []).getS "kwargs" = .dict [] :=
  ⟨claim9_choices_kwarg_routing.1 "CharField" (.str "status") []
      [mkKeyword (.str "choices") (mkName "STATUS_CHOICES")] []
      [(.str "STATUS_CHOICES", [])]
      (List.forall_mem_singleton.mpr fun _ => rfl),
   claim9_choices_kwarg_routing.2.1 "CharField" "STATUS_CHOICES"
      (.str "status") [(.str "ACTIVE", .str "A")]
      [(.str "STATUS_CHOICES", [(.str "ACTIVE", .str "Active")])]
      (.str "STATUS_CHOICES", [(.str "ACTIVE", .str "Active")]) rfl,
   (claim9_choices_kwarg_routing.2.2.1 "CharField" "OTHER_CHOICES"
      (.str "status") [] [] rfl).1,
   claim9_choices_kwarg_routing.2.2.2 "CharField" "validators"
      (.str "status") (mkListNode []) rfl rfl rfl⟩

/-- C5: parsing a file that does not exist yields a NotFound-flagged error
result and never a SyntaxError-flagged one, and a file that exists but fails
to parse yields a SyntaxError-flagged result distinguishable from NotFound
(`src/parsing.py`), so a caller can map the two outcomes to different HTTP
status classes; the server variant (`src/server/parsing.py`) surfaces the
same two failures as the distinct exceptions `FileNotFoundError` and
`SyntaxError`. -/
theorem claim5_notfound_vs_syntaxerror (fs : List (String × String))
    (parseFn : String → Except String PyObj) (p : String) :
    (fs.lookup p = Option.none →
      isNotFoundResult (Parsing.parse_django_file_ast fs parseFn p) = true
      ∧ isSyntaxErrorResult (Parsing.parse_django_file_ast fs parseFn p)
          = false
      ∧ ServerParsing.parse_django_file_ast fs parseFn p =
          .error (.fileNotFound p))
    ∧ (∀ (src e : String), fs.lookup p = some src → parseFn src = .error e →
      isSyntaxErrorResult (Parsing.parse_django_file_ast fs parseFn p) = true
      ∧ isNotFoundResult (Parsing.parse_django_file_ast fs parseFn p) = false
      ∧ ServerParsing.parse_django_file_ast fs parseFn p =
          .error (.syntaxError e)) := by
  constructor
  · intro h
    unfold Parsing.parse_django_file_ast ServerParsing.parse_django_file_ast
    simp only [h]
    refine ⟨?_, ?_, trivial⟩
    · show pyStartswith ("File not found: " ++ p) "File not found" = true
      exact (notFound_message_flags p).1
    · show pyStartswith ("File not found: " ++ p) "Failed to parse" = false
      exact (notFound_message_flags p).2
  · intro src e hs he
    unfold Parsing.parse_django_file_ast ServerParsing.parse_django_file_ast
    simp only [hs, he]
    refine ⟨?_, ?_, trivial⟩
    · show pyStartswith ("Failed to parse " ++ p ++ ": " ++ e)
        "Failed to parse" = true
      exact (syntaxError_message_flags p e).1
    · show pyStartswith ("Failed to parse " ++ p ++ ": " ++ e)
        "File not found" = false
      exact (syntaxError_message_flags p e).2

/-- C5 witness: a missing path and a syntactically invalid file at concrete
inputs. -/
theorem claim5_notfound_vs_syntaxerror_witness :
    (isNotFoundResult (Parsing.parse_django_file_ast [("bad.py", "def (")]
        (fun _ => .error "invalid syntax") "missing.py") = true
      ∧ isSyntaxErrorResult (Parsing.parse_django_file_ast
          [("bad.py", "def (")] (fun _ => .error "invalid syntax")
          "missing.py") = false
      ∧ ServerParsing.parse_django_file_ast [("bad.py", "def (")]
          (fun _ => .error "invalid syntax") "missing.py" =
          .error (.fileNotFound "missing.py"))
    ∧ (isSyntaxErrorResult (Parsing.parse_django_file_ast
          [("bad.py", "def (")] (fun _ => .error "invalid syntax")
          "bad.py") = true
      ∧ isNotFoundResult (Parsing.parse_django_file_ast [("bad.py", "def (")]
          (fun _ => .error "invalid syntax") "bad.py") = false
      ∧ ServerParsing.parse_django_file_ast [("bad.py", "def (")]
          (fun _ => .error "invalid syntax") "bad.py" =
          .error (.syntaxError "invalid syntax")) :=
  ⟨(claim5_notfound_vs_syntaxerror [("bad.py", "def (")]
      (fun _ => .error "invalid syntax") "missing.py").1 rfl,
   (claim5_notfound_vs_syntaxerror [("bad.py", "def (")]
      (fun _ => .error "invalid syntax") "bad.py").2 "def (" "invalid syntax"
      rfl rfl⟩

/-- C8: the parse-and-transform pipeline (`parse_django_file_ast` followed by
`transform_models_py`) is a deterministic function of the file's content and
path: any two runs over file systems that agree on the file's content
produce equal structured output — in particular, parsing the same unchanged
file twice yields identical (hence byte-identical once serialised) output. -/
theorem claim8_pipeline_deterministic (fs₁ fs₂ : List (String × String))
    (parseFn : String → Except String PyObj) (p : String)
    (h : fs₁.lookup p = fs₂.lookup p) :
    Transform.parse_and_transform fs₁ parseFn p =
      Transform.parse_and_transform fs₂ parseFn p := by
  unfold Transform.parse_and_transform Parsing.parse_django_file_ast
  rw [h]

/-- C8 witness: two file systems agreeing on `models.py` (one carries an
extra unrelated file) give identical pipeline output. -/
theorem claim8_pipeline_deterministic_witness :
    Transform.parse_and_transform
      [("models.py", "class A: pass"), ("views.py", "x = 1")]
      (fun _ => .ok (.node "Module" Option.none Option.none
        [("body", .list [])])) "models.py" =
    Transform.parse_and_transform [("models.py", "class A: pass")]
      (fun _ => .ok (.node "Module" Option.none Option.none
        [("body", .list [])])) "models.py" :=
  claim8_pipeline_deterministic
    [("models.py", "class A: pass"), ("views.py", "x = 1")]
    [("models.py", "class A: pass")]
    (fun _ => .ok (.node "Module" Option.none Option.none
      [("body", .list [])])) "models.py" rfl

/-- The basic flattener stores exactly the computed span text under
`body_source` for a standard `FunctionDef` node. -/
theorem basic_funcdef_body_source (source nm : String) (argsNode : PyObj)
    (stmts decorators : List PyObj) (ln eln : Option Int) :
    (Parsing.ast_to_dict source
        (funcDefObj nm argsNode stmts decorators ln eln)).getS "body_source" =
      .str (bodySpanSource source (.list stmts)) := rfl

/-- The server flattener's `body_source` and `docstring` entries of a
standard `FunctionDef` node, expressed through the docstring split of the
stripped span text. -/
theorem server_funcdef_body_entries (source nm : String) (argsNode : PyObj)
    (stmts decorators : List PyObj) (ln eln : Option Int) :
    (ServerParsing.ast_to_dict source
        (funcDefObj nm argsNode stmts decorators ln eln)).getS "body_source" =
      .str (ServerParsing.splitDocstring
        (pyStrip (bodySpanSource source (.list stmts)))).1
    ∧ dictLookup (ServerParsing.ast_to_dict source
        (funcDefObj nm argsNode stmts decorators ln eln)) "docstring" =
      Option.map PyVal.str (ServerParsing.splitDocstring
        (pyStrip (bodySpanSource source (.list stmts)))).2 := by
  cases hsp : ServerParsing.splitDocstring
      (pyStrip (bodySpanSource source (.list stmts))) with
  | mk b od =>
      have hsp1 : (ServerParsing.splitDocstring
          (pyStrip (bodySpanSource source (.list stmts)))).1 = b := by
        rw [hsp]
      have hsp2 : (ServerParsing.splitDocstring
          (pyStrip (bodySpanSource source (.list stmts)))).2 = od := by
        rw [hsp]
      have he : ServerParsing.serverBodyEntries source (.list stmts) =
          od.elim [(.str "body_source", .str b)]
            (fun d =>
              [(.str "body_source", .str b), (.str "docstring", .str d)]) := by
        simp only [ServerParsing.serverBodyEntries]
        rw [hsp2, hsp1]
        cases od <;> rfl
      cases od <;>
        simp [funcDefObj, ServerParsing.ast_to_dict, ServerParsing.funcFields,
          he, PyVal.getS, PyVal.getD, dictLookup, lookupEntries, pyBeq]

/-- C4: a function or method definition with an empty body, or whose
computed line span is invalid (missing line numbers, non-positive length, or
out-of-range indices), gets the raw body text `""` in both flatteners — the
conversion is total, so no exception is ever raised — and the server variant
emits no docstring key for an empty body. -/
theorem claim4_empty_or_invalid_span (source nm : String) (argsNode : PyObj)
    (decorators : List PyObj) (ln eln : Option Int) :
    ((Parsing.ast_to_dict source
        (funcDefObj nm argsNode [] decorators ln eln)).getS "body_source" =
          .str ""
      ∧ (ServerParsing.ast_to_dict source
          (funcDefObj nm argsNode [] decorators ln eln)).getS "body_source" =
          .str ""
      ∧ dictLookup (ServerParsing.ast_to_dict source
          (funcDefObj nm argsNode [] decorators ln eln)) "docstring" =
          Option.none)
    ∧ (∀ (first : PyObj) (rest : List PyObj),
        (∀ bs be : Int, stmtLineno first = some bs →
          stmtEndLinenoD (rest.getLastD first) = some be →
          (0 ≤ bs - 1 && bs - 1 < ((splitlinesKeep source).length : Int)
            && bs - 1 < be
            && be ≤ ((splitlinesKeep source).length : Int)) = false) →
        (Parsing.ast_to_dict source
            (funcDefObj nm argsNode (first :: rest) decorators ln
              eln)).getS "body_source" = .str ""
        ∧ (ServerParsing.ast_to_dict source
            (funcDefObj nm argsNode (first :: rest) decorators ln
              eln)).getS "body_source" = .str "") := by
  constructor
  · refine ⟨?_, ?_, ?_⟩
    · rw [basic_funcdef_body_source]
      rfl
    · rw [(server_funcdef_body_entries source nm argsNode [] decorators
        ln eln).1]
      rfl
    · rw [(server_funcdef_body_entries source nm argsNode [] decorators
        ln eln).2]
      rfl
  · intro first rest hguard
    have hspan : bodySpanSource source (.list (first :: rest)) = "" := by
      unfold bodySpanSource
      cases h1 : stmtLineno first with
      | none => simp [h1]
      | some bs =>
          cases h2 : stmtEndLinenoD (rest.getLastD first) with
          | none =>
              rw [List.getLastD_eq_getLast?] at h2
              simp [h1, h2]
          | some be =>
              have hg := hguard bs be h1 h2
              rw [List.getLastD_eq_getLast?] at h2
              simp [h1, h2]
              intro ha hb hc hd
              exfalso
              simp only [Bool.and_eq_false_iff, decide_eq_false_iff_not] at hg
              omega
    constructor
    · rw [basic_funcdef_body_source, hspan]
    · rw [(server_funcdef_body_entries source nm argsNode (first :: rest)
        decorators ln eln).1, hspan]
      rfl

/-- C4 witness: an empty-bodied definition and one whose span runs backwards
(start line 5, end line 2) both yield the empty body text at concrete
inputs. -/
theorem claim4_empty_or_invalid_span_witness :
    ((Parsing.ast_to_dict "x = 1\n"
        (funcDefObj "f" (.node "arguments" Option.none Option.none []) []
          [] (some 1) (some 1))).getS "body_source" = .str ""
      ∧ (ServerParsing.ast_to_dict "x = 1\n"
          (funcDefObj "f" (.node "arguments" Option.none Option.none []) []
            [] (some 1) (some 1))).getS "body_source" = .str ""
      ∧ dictLookup (ServerParsing.ast_to_dict "x = 1\n"
          (funcDefObj "f" (.node "arguments" Option.none Option.none []) []
            [] (some 1) (some 1))) "docstring" = Option.none)
    ∧ ((Parsing.ast_to_dict "x = 1\n"
        (funcDefObj "f" (.node "arguments" Option.none Option.none [])
          [stmtAt "Return" 5 2] [] (some 1) (some 1))).getS "body_source" =
          .str ""
      ∧ (ServerParsing.ast_to_dict "x = 1\n"
          (funcDefObj "f" (.node "arguments" Option.none Option.none [])
            [stmtAt "Return" 5 2] [] (some 1) (some 1))).getS
            "body_source" = .str "") :=
  ⟨(claim4_empty_or_invalid_span "x = 1\n" "f"
      (.node "arguments" Option.none Option.none []) [] (some 1)
      (some 1)).1,
   (claim4_empty_or_invalid_span "x = 1\n" "f"
      (.node "arguments" Option.none Option.none []) [] (some 1) (some 1)).2
      (stmtAt "Return" 5 2) []
      (by
        intro bs be h1 h2
        cases h1
        cases h2
        decide)⟩

/-- On a valid span (both line numbers present, index guard satisfied) the
span computation returns exactly the joined source lines of the span. -/
theorem bodySpanSource_of_valid (source : String) (first : PyObj)
    (rest : List PyObj) (bs be : Int)
    (h1 : stmtLineno first = some bs)
    (h2 : stmtEndLinenoD (rest.getLastD first) = some be)
    (hg : (0 ≤ bs - 1 && bs - 1 < ((splitlinesKeep source).length : Int)
      && bs - 1 < be && be ≤ ((splitlinesKeep source).length : Int)) = true) :
    bodySpanSource source (.list (first :: rest)) =
      String.join (sliceList (splitlinesKeep source) (bs - 1).toNat
        be.toNat) := by
  unfold bodySpanSource
  simp only [h1, h2]
  rw [if_pos hg]

/-- When the trigger condition fails, the docstring split leaves the text
unchanged and extracts nothing. -/
theorem splitDocstring_of_trigger_false (s : String)
    (h : ServerParsing.hasDocstringTrigger s = false) :
    ServerParsing.splitDocstring s = (s, Option.none) := by
  unfold ServerParsing.hasDocstringTrigger at h
  unfold ServerParsing.splitDocstring
  by_cases h1 : (pyStartswith s tripleDQ || pyStartswith s tripleSQ) = true
  · rw [h1] at h
    simp only [Bool.true_and] at h
    have h' : ¬((pyFind (strSliceFrom s 3) (ServerParsing.quoteTypeOf s)
        != (-1 : Int)) = true) := by
      simp [h]
    rw [if_pos h1, if_neg h']
  · rw [if_neg h1]

/-- When the trigger condition holds, the docstring split removes the
docstring (with its delimiters) from the text and returns both parts,
stripped. -/
theorem splitDocstring_of_trigger_true (s : String)
    (h : ServerParsing.hasDocstringTrigger s = true) :
    ServerParsing.splitDocstring s =
      (pyStrip (strSliceFrom s
        ((pyFind (strSliceFrom s 3) (ServerParsing.quoteTypeOf s)).toNat + 6)),
       some (pyStrip (strSlice s 3
        ((pyFind (strSliceFrom s 3)
          (ServerParsing.quoteTypeOf s)).toNat + 3)))) := by
  unfold ServerParsing.hasDocstringTrigger at h
  rw [Bool.and_eq_true] at h
  obtain ⟨hstart, hfind⟩ := h
  unfold ServerParsing.splitDocstring
  rw [if_pos hstart, if_pos hfind]

/-- C3 counterexample: for `def f():` with body `"""doc"""` / `return 1`
(lines 2–3), the server flattener's `body_source` is `"return 1"`, while the
whitespace-trimmed original span lines 2–3 are a different, longer text — so
the server flattener's raw body text does not reconstruct the original span
lines when a docstring is split out. -/
theorem claim3_server_counterexample :
    (ServerParsing.ast_to_dict srcF srcFDef).getS "body_source" =
      .str "return 1"
    ∧ pyStrip "return 1" = "return 1"
    ∧ pyStrip (String.join (sliceList (splitlinesKeep srcF) 1 3)) ≠
        "return 1" :=
  ⟨rfl, rfl, by decide⟩

/-- C3 (amended): for every function or method definition with a valid line
span, the basic flattener's `body_source` is exactly the original source
lines from the first body statement's start line through the last
statement's end line (falling back to its start line when no end line is
available); the server flattener's `body_source` is that text
whitespace-trimmed, provided the trimmed text does not begin with a closing
triple-quoted docstring — when it does, the docstring is removed from the
body text first. -/
theorem claim3_body_source_reconstruction (source nm : String)
    (argsNode : PyObj) (first : PyObj) (rest : List PyObj)
    (decorators : List PyObj) (ln eln : Option Int) (bs be : Int)
    (h1 : stmtLineno first = some bs)
    (h2 : stmtEndLinenoD (rest.getLastD first) = some be)
    (hg : (0 ≤ bs - 1 && bs - 1 < ((splitlinesKeep source).length : Int)
      && bs - 1 < be && be ≤ ((splitlinesKeep source).length : Int)) = true) :
    (Parsing.ast_to_dict source
        (funcDefObj nm argsNode (first :: rest) decorators ln eln)).getS
        "body_source" =
      .str (String.join (sliceList (splitlinesKeep source) (bs - 1).toNat
        be.toNat))
    ∧ (ServerParsing.hasDocstringTrigger (strippedSpan source bs be)
        = false →
      (ServerParsing.ast_to_dict source
          (funcDefObj nm argsNode (first :: rest) decorators ln eln)).getS
          "body_source" = .str (strippedSpan source bs be)) := by
  have hspan := bodySpanSource_of_valid source first rest bs be h1 h2 hg
  constructor
  · rw [basic_funcdef_body_source, hspan]
  · intro htr
    have hb := (server_funcdef_body_entries source nm argsNode (first :: rest)
      decorators ln eln).1
    rw [hspan] at hb
    rw [hb]
    simp only [strippedSpan] at htr ⊢
    rw [splitDocstring_of_trigger_false _ htr]

/-- C3 witness: the docstring-free function `def g(): return 2` at concrete
inputs — both flatteners reconstruct the span (the server one trimmed). -/
theorem claim3_body_source_reconstruction_witness :
    (Parsing.ast_to_dict srcG srcGDef).getS "body_source" =
      .str (String.join (sliceList (splitlinesKeep srcG)
        ((2 : Int) - 1).toNat (2 : Int).toNat))
    ∧ (ServerParsing.ast_to_dict srcG srcGDef).getS "body_source" =
      .str (strippedSpan srcG 2 2) :=
  ⟨(claim3_body_source_reconstruction srcG "g"
      (.node "arguments" Option.none Option.none []) (stmtAt "Return" 2 2)
      [] [] (some 1) (some 2) 2 2 rfl rfl (by decide)).1,
   (claim3_body_source_reconstruction srcG "g"
      (.node "arguments" Option.none Option.none []) (stmtAt "Return" 2 2)
      [] [] (some 1) (some 2) 2 2 rfl rfl (by decide)).2 rfl⟩

/-- C10: for a flattened function definition with a valid span, the server
flattener emits a `docstring` key exactly when the whitespace-trimmed span
text begins with one of the two triple-quote delimiters and the same
delimiter occurs again later in
it; when it does, the docstring (stripped, without its delimiters) is
removed from `body_source`; when it does not — in particular for a leading
string using any other quoting — `body_source` is the trimmed span text
unchanged. -/
theorem claim10_server_docstring_split (source nm : String)
    (argsNode : PyObj) (first : PyObj) (rest : List PyObj)
    (decorators : List PyObj) (ln eln : Option Int) (bs be : Int)
    (h1 : stmtLineno first = some bs)
    (h2 : stmtEndLinenoD (rest.getLastD first) = some be)
    (hg : (0 ≤ bs - 1 && bs - 1 < ((splitlinesKeep source).length : Int)
      && bs - 1 < be && be ≤ ((splitlinesKeep source).length : Int)) = true) :
    ((dictLookup (ServerParsing.ast_to_dict source
        (funcDefObj nm argsNode (first :: rest) decorators ln eln))
        "docstring").isSome =
      ServerParsing.hasDocstringTrigger (strippedSpan source bs be))
    ∧ (ServerParsing.hasDocstringTrigger (strippedSpan source bs be)
        = false →
      (ServerParsing.ast_to_dict source
          (funcDefObj nm argsNode (first :: rest) decorators ln eln)).getS
          "body_source" = .str (strippedSpan source bs be))
    ∧ (ServerParsing.hasDocstringTrigger (strippedSpan source bs be)
        = true →
      (ServerParsing.ast_to_dict source
          (funcDefObj nm argsNode (first :: rest) decorators ln eln)).getS
          "body_source" =
        .str (pyStrip (strSliceFrom (strippedSpan source bs be)
          ((pyFind (strSliceFrom (strippedSpan source bs be) 3)
            (ServerParsing.quoteTypeOf
              (strippedSpan source bs be))).toNat + 6)))
      ∧ dictLookup (ServerParsing.ast_to_dict source
          (funcDefObj nm argsNode (first :: rest) decorators ln eln))
          "docstring" =
        some (.str (pyStrip (strSlice (strippedSpan source bs be) 3
          ((pyFind (strSliceFrom (strippedSpan source bs be) 3)
            (ServerParsing.quoteTypeOf
              (strippedSpan source bs be))).toNat + 3))))) := by
  have hspan := bodySpanSource_of_valid source first rest bs be h1 h2 hg
  have hb := (server_funcdef_body_entries source nm argsNode (first :: rest)
    decorators ln eln).1
  have hd := (server_funcdef_body_entries source nm argsNode (first :: rest)
    decorators ln eln).2
  rw [hspan] at hb hd
  refine ⟨?_, fun htr => ?_, fun htr => ⟨?_, ?_⟩⟩
  · rw [hd]
    simp only [strippedSpan]
    cases htr : ServerParsing.hasDocstringTrigger
        (pyStrip (String.join (sliceList (splitlinesKeep source)
          (bs - 1).toNat be.toNat))) with
    | false => rw [splitDocstring_of_trigger_false _ htr]; rfl
    | true => rw [splitDocstring_of_trigger_true _ htr]; rfl
  · rw [hb]
    simp only [strippedSpan] at htr ⊢
    rw [splitDocstring_of_trigger_false _ htr]
  · rw [hb]
    simp only [strippedSpan] at htr ⊢
    rw [splitDocstring_of_trigger_true _ htr]
  · rw [hd]
    simp only [strippedSpan] at htr ⊢
    rw [splitDocstring_of_trigger_true _ htr]
    rfl

/-- C10 witness: `def f()` with a `"""doc"""` docstring (key emitted, body
cleaned) and `def g()` without one (no key, body unchanged), at concrete
inputs. -/
theorem claim10_server_docstring_split_witness :
    ((dictLookup (ServerParsing.ast_to_dict srcF srcFDef)
        "docstring").isSome =
      ServerParsing.hasDocstringTrigger (strippedSpan srcF 2 3))
    ∧ (ServerParsing.ast_to_dict srcF srcFDef).getS "body_source" =
      .str (pyStrip (strSliceFrom (strippedSpan srcF 2 3)
        ((pyFind (strSliceFrom (strippedSpan srcF 2 3) 3)
          (ServerParsing.quoteTypeOf (strippedSpan srcF 2 3))).toNat + 6)))
    ∧ (ServerParsing.ast_to_dict srcG srcGDef).getS "body_source" =
      .str (strippedSpan srcG 2 2) :=
  ⟨(claim10_server_docstring_split srcF "f"
      (.node "arguments" Option.none Option.none []) (stmtAt "Expr" 2 2)
      [stmtAt "Return" 3 3] [] (some 1) (some 3) 2 3 rfl rfl (by decide)).1,
   ((claim10_server_docstring_split srcF "f"
      (.node "arguments" Option.none Option.none []) (stmtAt "Expr" 2 2)
      [stmtAt "Return" 3 3] [] (some 1) (some 3) 2 3 rfl rfl
      (by decide)).2.2 rfl).1,
   (claim10_server_docstring_split srcG "g"
      (.node "arguments" Option.none Option.none []) (stmtAt "Return" 2 2)
      [] [] (some 1) (some 2) 2 2 rfl rfl (by decide)).2.1 rfl⟩

/-- Equality via `strEq` holds exactly for the matching string value. -/
theorem strEq_true_iff (v : PyVal) (s : String) :
    strEq v s = true ↔ v = .str s := by
  cases v <;> simp [strEq]

/-- How one body-loop step changes the properties and methods components:
only a `FunctionDef` item contributes, to exactly one of the two lists,
according to its `@property` decorator. -/
theorem transform_model_item_props_methods (acc : Transform.ModelAcc)
    (it : PyVal) :
    ((Transform.transform_model_item acc it).properties =
      (if isPropertyItem it then acc.properties ++ [propertyRecord it]
       else acc.properties))
    ∧ ((Transform.transform_model_item acc it).methods =
      (if isMethodItem it then acc.methods ++ [methodRecord it]
       else acc.methods)) := by
  unfold Transform.transform_model_item isPropertyItem isMethodItem
  by_cases h1 : strEq (it.getS "_nodetype") "Assign" = true
  · have hF : strEq (it.getS "_nodetype") "FunctionDef" = false := by
      rw [strEq_true_iff] at h1
      rw [h1]
      rfl
    rw [if_pos h1]
    simp only [hF, Bool.false_and, Bool.false_eq_true, if_false]
    constructor <;>
      (split
       · split <;> rfl
       · rfl)
  · rw [if_neg h1]
    by_cases h2 : strEq (it.getS "_nodetype") "FunctionDef" = true
    · rw [if_pos h2]
      by_cases hp : Transform.has_property_decorator it = true
      · simp [h2, hp, Transform.parse_method_or_property, propertyRecord,
          methodRecord]
      · simp [h2, hp, Transform.parse_method_or_property, propertyRecord,
          methodRecord]
    · rw [if_neg h2]
      have h2' : strEq (it.getS "_nodetype") "FunctionDef" = false :=
        Bool.eq_false_iff.mpr h2
      simp only [h2', Bool.false_and, Bool.false_eq_true, if_false]
      constructor <;> (split <;> rfl)

/-- The body fold accumulates exactly the property-decorated definitions
into properties and the remaining definitions into methods. -/
theorem transform_model_foldl_props_methods (items : List PyVal) :
    ∀ acc : Transform.ModelAcc,
    ((items.foldl Transform.transform_model_item acc).properties =
      acc.properties ++ (items.filter isPropertyItem).map propertyRecord)
    ∧ ((items.foldl Transform.transform_model_item acc).methods =
      acc.methods ++ (items.filter isMethodItem).map methodRecord) := by
  induction items with
  | nil => intro acc; simp
  | cons it items ih =>
      intro acc
      rw [List.foldl_cons]
      obtain ⟨ihp, ihm⟩ := ih (Transform.transform_model_item acc it)
      obtain ⟨hsp, hsm⟩ := transform_model_item_props_methods acc it
      constructor
      · rw [ihp, hsp, List.filter_cons]
        by_cases h : isPropertyItem it = true <;>
          simp [h]
      · rw [ihm, hsm, List.filter_cons]
        by_cases h : isMethodItem it = true <;>
          simp [h]

/-- On the totalized extractor, every `@property`-decorated method of a
Django model class lands in the properties list (as a record without any
argument entry) and never in the methods list; every other method
definition lands in the methods list with the full six-slot argument
descriptor; and a property's parsed argument list is empty.  The real
program only reaches this routing when the line-180 docstring strip does
not raise first (see `claim6_property_routing_crash` and
`property_method_routing_checked`). -/
theorem property_method_routing_total (cname : String) (items : List PyVal) :
    ((((Transform.transform_models_py (mkModuleAst
        [mkClassDef cname [modelsModelBase] items])).getS
        "models").toList.headD .none).getS "properties" =
      .list ((items.filter isPropertyItem).map propertyRecord))
    ∧ ((((Transform.transform_models_py (mkModuleAst
        [mkClassDef cname [modelsModelBase] items])).getS
        "models").toList.headD .none).getS "methods" =
      .list ((items.filter isMethodItem).map methodRecord))
    ∧ (∀ it : PyVal, dictLookup (propertyRecord it) "args" = Option.none)
    ∧ (∀ it : PyVal, (dictLookup (methodRecord it) "args").isSome = true)
    ∧ (∀ it : PyVal, Transform.has_property_decorator it = true →
        (Transform.parse_method_or_property it).2.1 = .list []) := by
  have hacc := transform_model_foldl_props_methods items
    ⟨[], [], [], [], [], []⟩
  refine ⟨?_, ?_, fun it => rfl, fun it => rfl, fun it hp => ?_⟩
  · show PyVal.list ((items.foldl Transform.transform_model_item
      ⟨[], [], [], [], [], []⟩).properties) = _
    rw [hacc.1]
    rfl
  · show PyVal.list ((items.foldl Transform.transform_model_item
      ⟨[], [], [], [], [], []⟩).methods) = _
    rw [hacc.2]
    rfl
  · unfold Transform.parse_method_or_property
    rw [hp]
    rfl

/-- A successful checked strip agrees with the totalized strip. -/
theorem pyStripVal?_some (v w : PyVal)
    (h : Transform.pyStripVal? v = some w) : w = Transform.pyStripVal v := by
  cases v <;> simp_all [Transform.pyStripVal?, Transform.pyStripVal]

/-- A fallible fold that succeeds agrees with the total fold of a pointwise
agreeing step function. -/
theorem foldlM_option_agree {α β : Type} (f? : β → α → Option β)
    (f : β → α → β)
    (hstep : ∀ (b : β) (a : α) (b' : β), f? b a = some b' → b' = f b a) :
    ∀ (xs : List α) (b b' : β), xs.foldlM f? b = some b' →
      b' = xs.foldl f b := by
  intro xs
  induction xs with
  | nil =>
      intro b b' h
      simp only [List.foldlM_nil] at h
      injection h with h'
      rw [← h']
      rfl
  | cons a xs ih =>
      intro b b' h
      rw [List.foldlM_cons] at h
      cases hstep0 : f? b a with
      | none => rw [hstep0] at h; simp at h
      | some b1 =>
          rw [hstep0] at h
          simp only [Option.bind_eq_bind, Option.some_bind] at h
          rw [List.foldl_cons, ← hstep b a b1 hstep0]
          exact ih b1 b' h

/-- A successful checked docstring extraction agrees with the totalized
one. -/
theorem model_docstring?_some (dec d : PyVal)
    (h : Transform.model_docstring? dec = some d) :
    d = Transform.model_docstring dec := by
  unfold Transform.model_docstring? at h
  unfold Transform.model_docstring
  cases hv : Transform.model_docstring_value dec with
  | none =>
      rw [hv] at h
      injection h with h'
      exact h'.symm
  | some v =>
      rw [hv] at h
      exact pyStripVal?_some v d h

/-- A successful checked method/property parse agrees with the totalized
one. -/
theorem parse_method_or_property?_some (item : PyVal)
    (t : PyVal × PyVal × PyVal × Bool × PyVal)
    (h : Transform.parse_method_or_property? item = some t) :
    t = Transform.parse_method_or_property item := by
  unfold Transform.parse_method_or_property? at h
  by_cases hp : Transform.has_property_decorator item = true
  · rw [if_pos hp] at h
    cases h1 : Transform.pyStripVal?
        (item.getD (.str "body_source") (.str "")) with
    | none => rw [h1] at h; cases h
    | some method_body =>
        rw [h1] at h
        cases h2 : Transform.pyStripVal?
            (item.getD (.str "docstring") (.str "")) with
        | none => rw [h2] at h; cases h
        | some docstring =>
            rw [h2] at h
            injection h with h'
            unfold Transform.parse_method_or_property
            rw [if_pos hp, ← h', pyStripVal?_some _ _ h1,
              pyStripVal?_some _ _ h2]
  · rw [if_neg hp] at h
    injection h with h'
    exact h'.symm

/-- A successful checked body-loop step agrees with the totalized one. -/
theorem transform_model_item?_some (acc : Transform.ModelAcc) (item : PyVal)
    (acc' : Transform.ModelAcc)
    (h : Transform.transform_model_item? acc item = some acc') :
    acc' = Transform.transform_model_item acc item := by
  unfold Transform.transform_model_item? at h
  by_cases hf : strEq (item.getS "_nodetype") "FunctionDef" = true
  · rw [if_pos hf] at h
    cases hp : Transform.parse_method_or_property? item with
    | none => rw [hp] at h; cases h
    | some parsed =>
        rw [hp] at h
        simp only [Option.map_some'] at h
        injection h with h'
        have ha : strEq (item.getS "_nodetype") "Assign" = false := by
          rw [strEq_true_iff] at hf
          rw [hf]
          rfl
        unfold Transform.transform_model_item
        rw [if_neg (by simp [ha]), if_pos hf,
          ← parse_method_or_property?_some item parsed hp, ← h']
  · rw [if_neg hf] at h
    injection h with h'
    exact h'.symm

/-- A successful checked model record agrees with the totalized one. -/
theorem modelInfo?_some (dec r : PyVal)
    (h : Transform.modelInfo? dec = some r) :
    r = Transform.modelInfo dec := by
  unfold Transform.modelInfo? at h
  cases hd : Transform.model_docstring? dec with
  | none => rw [hd] at h; cases h
  | some d =>
      rw [hd] at h
      cases ha : (dec.getD (.str "body") (.list [])).toList.foldlM
          Transform.transform_model_item? ⟨[], [], [], [], [], []⟩ with
      | none => rw [ha] at h; cases h
      | some acc =>
          rw [ha] at h
          injection h with h'
          have hacc := foldlM_option_agree Transform.transform_model_item?
            Transform.transform_model_item transform_model_item?_some _ _ _ ha
          unfold Transform.modelInfo
          rw [← h', model_docstring?_some dec d hd, hacc]

/-- A successful checked declarations-loop step agrees with the totalized
one. -/
theorem modelsStep?_some (output : List PyVal) (dec : PyVal)
    (out' : List PyVal)
    (h : Transform.modelsStep? output dec = some out') :
    out' = Transform.modelsStep output dec := by
  unfold Transform.modelsStep? at h
  unfold Transform.modelsStep
  by_cases h1 : (!strEq (dec.getS "_nodetype") "ClassDef") = true
  · rw [if_pos h1] at h
    rw [if_pos h1]
    injection h with h'
    exact h'.symm
  · rw [if_neg h1] at h
    rw [if_neg h1]
    by_cases h2 : (!Transform.is_django_model dec) = true
    · rw [if_pos h2] at h
      rw [if_pos h2]
      injection h with h'
      exact h'.symm
    · rw [if_neg h2] at h
      rw [if_neg h2]
      cases hm : Transform.modelInfo? dec with
      | none => rw [hm] at h; cases h
      | some mi =>
          rw [hm] at h
          simp only [Option.map_some'] at h
          injection h with h'
          rw [← h', modelInfo?_some dec mi hm]

/-- Whenever the real extractor does not raise, its output is exactly the
totalized extractor's output. -/
theorem transform_models_py?_some (ast r : PyVal)
    (h : Transform.transform_models_py? ast = some r) :
    r = Transform.transform_models_py ast := by
  unfold Transform.transform_models_py? at h
  cases hm : (ast.getD (.str "ast_declarations")
      (.list [])).toList.foldlM Transform.modelsStep? [] with
  | none => rw [hm] at h; cases h
  | some models =>
      rw [hm] at h
      injection h with h'
      have hms := foldlM_option_agree Transform.modelsStep?
        Transform.modelsStep modelsStep?_some _ _ _ hm
      unfold Transform.transform_models_py
      rw [← h', hms]

/-- On every parsed file where the extractor does not raise, the models
list length equals the matching-class count. -/
theorem models_list_length_checked (ast r : PyVal)
    (h : Transform.transform_models_py? ast = some r) :
    (r.getS "models").toList.length =
      (ast.getD (.str "ast_declarations") (.list [])).toList.countP
        isDjangoModelClassDec := by
  rw [transform_models_py?_some ast r h]
  exact models_list_length_total ast

/-- On every model class where the extractor does not raise, routing of
methods and properties is exactly by the `@property` decorator. -/
theorem property_method_routing_checked (cname : String)
    (items : List PyVal) (r : PyVal)
    (h : Transform.transform_models_py? (mkModuleAst
      [mkClassDef cname [modelsModelBase] items]) = some r) :
    (((r.getS "models").toList.headD .none).getS "properties" =
      .list ((items.filter isPropertyItem).map propertyRecord))
    ∧ (((r.getS "models").toList.headD .none).getS "methods" =
      .list ((items.filter isMethodItem).map methodRecord)) := by
  rw [transform_models_py?_some _ _ h]
  exact ⟨(property_method_routing_total cname items).1,
    (property_method_routing_total cname items).2.1⟩

/-- C1 (code bug): for the parsed file containing
`class Flagged(models.Model):` whose first body statement is the bare
non-string constant `42`, the extractor raises `AttributeError` at the
docstring strip (`transform_models.py` line 180, checked only for
`_nodetype == "Constant"`, not for a string value) and produces no models
list at all — although the file contains exactly one class with a
`models.Model` base, for which the claim (and the spec, which conditions
docstring capture on a string constant and forbids fatal extractor errors)
requires a one-element models list. -/
theorem claim1_models_list_crash :
    Transform.transform_models_py? (mkModuleAst [nonStringDocClass]) =
      Option.none
    ∧ ((mkModuleAst [nonStringDocClass]).getD (.str "ast_declarations")
        (.list [])).toList.countP isDjangoModelClassDec = 1 :=
  ⟨rfl, rfl⟩

/-- C6 (code bug): for a model class headed by the bare constant `42`, the
extractor crashes at the line-180 docstring strip before the body loop
runs, so its `@property`-decorated method (`full_name` here, which the
routing predicate recognises) is never placed in the properties list — or
anywhere else; the claim (and the spec's decision table) requires it under
properties. -/
theorem claim6_property_routing_crash :
    Transform.transform_models_py? (mkModuleAst [nonStringDocPropertyClass]) =
      Option.none
    ∧ isPropertyItem (mkFunctionDefVal "full_name" [mkName "property"]
        "return 1") = true :=
  ⟨rfl, rfl⟩

end Openbase
